import Mathlib

/-!
Verification development for the `coherent-rs` repository: a shallow Lean
embedding of the laser data model (`src/laser.rs`), the Discovery NX wire
codec and session parsing (`src/laser/discoverynx.rs`), the in-memory debug
laser (`src/laser/debug.rs`), the TCP framing and server/client logic
(`src/network.rs`), together with theorems settling the specification
claims about these components.

Modelling conventions:
* Rust `f32` fields are modelled as exact rationals (`ℚ`) where only
  comparisons and field transport matter, and as 32-bit patterns (`Nat`)
  where the serialized byte form matters; floating-point rounding plays no
  role in any claim settled here.
* Rust `String` values are modelled as Lean `String` where only
  concatenation matters and as `List Char` where the response-parsing
  functions (split/trim/contains) are involved.
* Byte buffers are `List Nat` (each entry one byte).
* A Rust panic (index out of bounds, `unwrap` of `None`/`Err`) is modelled
  by `Option`, with `none` denoting the panic.
-/

namespace CoherentRS

/-! ## Data model from `src/laser.rs` -/

/-- `LaserType` from `src/laser.rs`. -/
inductive LaserType
  | DiscoveryNX
  | DebugLaser
  | UnrecognizedDevice
deriving DecidableEq, Repr

/-- `impl From<u16> for LaserType` from `src/laser.rs`: product id 0 is the
debug laser, 516 the Discovery NX, anything else unrecognized. -/
def LaserType.fromProductId (product_id : Nat) : LaserType :=
  if product_id = 0 then .DebugLaser
  else if product_id = 516 then .DiscoveryNX
  else .UnrecognizedDevice

/-- `LaserState` from `src/laser.rs` (standby / on). -/
inductive LaserState
  | Standby
  | On
deriving DecidableEq, Repr

/-- `ShutterState` from `src/laser.rs`. -/
inductive ShutterState
  | Open
  | Closed
deriving DecidableEq, Repr

/-- `impl From<bool> for ShutterState` from `src/laser.rs`:
`true` is `Open` and `false` is `Closed`. -/
def ShutterState.fromBool (state : Bool) : ShutterState :=
  if state then .Open else .Closed

/-- `impl std::ops::Not for ShutterState` from `src/laser.rs`. -/
def ShutterState.notOp : ShutterState → ShutterState
  | .Open => .Closed
  | .Closed => .Open

/-- `TuningStatus` from `src/laser.rs`. -/
inductive TuningStatus
  | Tuning
  | Ready
deriving DecidableEq, Repr

/-- `impl From<bool> for TuningStatus` from `src/laser.rs`. -/
def TuningStatus.fromBool (tuning : Bool) : TuningStatus :=
  if tuning then .Tuning else .Ready

/-- `impl Into<bool> for TuningStatus` from `src/laser.rs`. -/
def TuningStatus.intoBool : TuningStatus → Bool
  | .Tuning => true
  | .Ready => false

/-- `impl std::ops::Not for TuningStatus` from `src/laser.rs`. -/
def TuningStatus.notOp : TuningStatus → TuningStatus
  | .Tuning => .Ready
  | .Ready => .Tuning

/-- The shutter-to-bool conversion used by the C ABI
(`discovery_get_shutter_variable` in `src/c/src/lib.rs`): the shutter reads
as `true` exactly when it is `Open`. -/
def ShutterState.cAbiBool (s : ShutterState) : Bool := s = ShutterState.Open

/-- The bool-to-`LaserState` conversion used by `set_to_standby`
(`src/laser/discoverynx.rs`) and the C ABI: `true` means `Standby`. -/
def LaserState.ofStandbyBool (standby : Bool) : LaserState :=
  if standby then .Standby else .On

/-- The `LaserState`-to-bool conversion of `discovery_get_laser_standby`
(`src/c/src/lib.rs`): `Standby` reads as `true`. -/
def LaserState.standbyBool : LaserState → Bool
  | .Standby => true
  | .On => false

/-- `CoherentError` from `src/lib.rs`.  Error payloads that the claims
inspect (`InvalidArgumentsError`, `InvalidResponseError`) are kept; the
payloads of the I/O variants are irrelevant to every claim and dropped. -/
inductive CoherentErrorM
  | SerialError
  | WriteError
  | TimeoutError
  | CommandNotExecutedError
  | InvalidArgumentsError (detail : List Char)
  | InvalidResponseError (raw : List Char)
  | LaserUnavailableError
  | UnrecognizedDevice
deriving DecidableEq, Repr

/-! ## Commands from `src/laser/discoverynx.rs` -/

/-- `DiscoveryLaser`: which optical path a command or query addresses. -/
inductive DiscoveryLaser
  | VariableWavelength
  | FixedWavelength
deriving DecidableEq, Repr

/-- `DiscoveryNXCommands` from `src/laser/discoverynx.rs`.  `f32` payloads
are modelled as `ℚ`, the `u8` payload as `Nat`. -/
inductive DiscoveryNXCommands
  | Echo (echo_on : Bool)
  | Laser (state : LaserState)
  | Shutter (laser : DiscoveryLaser) (state : ShutterState)
  | FaultClear
  | AlignmentMode (laser : DiscoveryLaser) (alignment_mode_on : Bool)
  | Wavelength (wavelength_nm : ℚ)
  | Heartbeat
  | GddCurve (curve_num : Nat)
  | GddCurveN (curve_name : String)
  | Gdd (gdd_val : ℚ)
  | SetCurveN (new_curve_name : String)
deriving DecidableEq, Repr

/-- `impl LaserCommand for DiscoveryNXCommands, fn to_string` from
`src/laser/discoverynx.rs`.  `fdisp` stands for Rust's `Display` rendering
of the `f32` payloads (`format!` with a float argument); the `u8` payload
is rendered by decimal `Display`, which coincides with `toString` on
`Nat`. -/
def commandToString (fdisp : ℚ → String) : DiscoveryNXCommands → String
  | .Echo echo => "E=" ++ (if echo then "1" else "0")
  | .Laser state =>
      "L=" ++ (match state with
        | .Standby => "0"
        | .On => "1")
  | .FaultClear => "FC"
  | .AlignmentMode laser mode =>
      (match laser with
        | .VariableWavelength => "ALIGN=" ++ (if mode then "1" else "0")
        | .FixedWavelength => "ALIGNFIXED=" ++ (if mode then "1" else "0"))
  | .Shutter laser state =>
      (match laser with
        | .VariableWavelength =>
            "S=" ++ (if state = ShutterState.Open then "1" else "0")
        | .FixedWavelength =>
            "SFIXED=" ++ (if state = ShutterState.Open then "1" else "0"))
  | .Wavelength wavelength => "WV=" ++ fdisp wavelength
  | .Heartbeat => "HB"
  | .GddCurve curve => "GDD=" ++ toString curve
  | .GddCurveN name => "GDDCURVEN=" ++ name
  | .Gdd gdd => "GDD=" ++ fdisp gdd
  | .SetCurveN name => "SETCURVEN=" ++ name

/-- `Discovery::send_serial_command` from `src/laser/discoverynx.rs`
(the bytes handed to the serial port): the command string with the
`CR LF` terminator appended. -/
def sendSerialCommand (command : String) : String :=
  command ++ "\r\n"

/-! ## The debug laser from `src/laser/debug.rs` -/

/-- The `DebugLaser` struct from `src/laser/debug.rs`.  Rust field names
carry a leading underscore (`_variable_shutter`, ...), dropped here;
`f32` fields are `ℚ`, the `i32` field is `Int`. -/
structure DebugLaser where
  serial_number : String
  echo : Bool
  prompt : Bool
  variable_shutter : Bool
  fixed_shutter : Bool
  variable_alignment : Bool
  fixed_alignment : Bool
  variable_power : ℚ
  fixed_power : ℚ
  variable_wavelength : ℚ
  tuning_status : Bool
  gdd : ℚ
  gdd_curve_n : String
  gdd_curve : Int
  status : String
  fault_text : String
deriving DecidableEq, Repr

/-- `impl Default for DebugLaser` from `src/laser/debug.rs`. -/
def DebugLaser.default : DebugLaser where
  serial_number := "DEBUG"
  echo := true
  prompt := false
  variable_shutter := false
  fixed_shutter := false
  variable_alignment := false
  fixed_alignment := false
  variable_power := 1000
  fixed_power := 5000
  variable_wavelength := 920
  tuning_status := false
  gdd := 0
  gdd_curve_n := "Default"
  gdd_curve := 0
  status := "OK"
  fault_text := "No faults"

/-- `DebugLaser::send_command` from `src/laser/debug.rs`, as a pure state
transformer: the Rust method mutates `self` and returns
`Result<(), CoherentError>`; here it returns the result together with the
updated laser.  The `_ => ()` catch-all of the Rust `match` covers
`Heartbeat` and `SetCurveN`. -/
def DebugLaser.sendCommand (d : DebugLaser) :
    DiscoveryNXCommands → Except CoherentErrorM Unit × DebugLaser
  | .Echo echo_on => (.ok (), { d with echo := echo_on })
  | .Wavelength wavelength_nm =>
      if wavelength_nm < 700 ∨ wavelength_nm > 1000 then
        (.error .CommandNotExecutedError, d)
      else
        (.ok (), { d with variable_wavelength := wavelength_nm })
  | .Gdd gdd_val =>
      if gdd_val < -10000 ∨ gdd_val > 10000 then
        (.error .CommandNotExecutedError, d)
      else
        (.ok (), { d with gdd := gdd_val })
  | .Shutter laser state =>
      (match laser with
        | .VariableWavelength =>
            (.ok (), { d with variable_shutter := state = ShutterState.Open })
        | .FixedWavelength =>
            (.ok (), { d with fixed_shutter := state = ShutterState.Open }))
  | .GddCurve curve_num => (.ok (), { d with gdd_curve := (curve_num : Int) })
  | .GddCurveN curve_name => (.ok (), { d with gdd_curve_n := curve_name })
  | .AlignmentMode laser alignment_mode_on =>
      (match laser with
        | .VariableWavelength =>
            (.ok (), { d with variable_alignment := alignment_mode_on })
        | .FixedWavelength =>
            (.ok (), { d with fixed_alignment := alignment_mode_on }))
  | .Laser state =>
      (match state with
        | .Standby => (.ok (), { d with status := "Standby" })
        | .On => (.ok (), { d with status := "On" }))
  | .FaultClear => (.ok (), { d with fault_text := "No faults" })
  | .Heartbeat => (.ok (), d)
  | .SetCurveN _ => (.ok (), d)

/-- `DebugLaser::query` from `src/laser/debug.rs`: fails for every query
(of any query type `α` and any result type `β`). -/
def DebugLaser.query {α β : Type} (_d : DebugLaser) (_q : α) :
    Except CoherentErrorM β :=
  .error .CommandNotExecutedError

/-! ## String helpers: Rust `str` operations on `List Char`

The session parsers use Rust `split` (on a substring pattern), `trim` and
`contains`.  They are modelled on `List Char` with structural recursion so
that all concrete instances evaluate inside the kernel. -/

/-- Rust/Unicode whitespace restricted to the ASCII characters that occur
in serial responses (`str::trim` agrees with this on them). -/
def isWsp (c : Char) : Bool :=
  c = ' ' ∨ c = '\t' ∨ c = '\r' ∨ c = '\n'

/-- Rust `str::trim` on character lists. -/
def trimL (s : List Char) : List Char :=
  ((s.dropWhile isWsp).reverse.dropWhile isWsp).reverse

/-- Strip `pre` from the front of `s`, returning the remainder when `pre`
is a prefix. -/
def dropPre : List Char → List Char → Option (List Char)
  | [], s => some s
  | _ :: _, [] => none
  | p :: ps, c :: cs => if p = c then dropPre ps cs else none

/-- Fuel-driven worker for `splitStr`; the fuel is an upper bound on the
length of the remaining input (supplied as the input's length, so the
fuel never runs out for a non-empty separator). -/
def splitFuel (sep : List Char) : Nat → List Char → List (List Char)
  | 0, _ => [[]]
  | _ + 1, [] => [[]]
  | n + 1, c :: cs =>
    match dropPre sep (c :: cs) with
    | some rest => [] :: splitFuel sep n rest
    | none =>
      match splitFuel sep n cs with
      | [] => [[c]]
      | seg :: segs => (c :: seg) :: segs

/-- Rust `str::split` with a non-empty substring pattern: the list of
segments between non-overlapping leftmost occurrences of `sep`. -/
def splitStr (s sep : List Char) : List (List Char) :=
  splitFuel sep s.length s

/-- Rust `str::contains` with a non-empty substring pattern: `sep` occurs
in `s` exactly when splitting produces more than one segment. -/
def containsSub (s sep : List Char) : Bool :=
  (splitStr s sep).length ≠ 1

/-- The literal `"COMMAND NOT EXECUTED"` tested by `Discovery::send_command`. -/
def cneTok : List Char := "COMMAND NOT EXECUTED".data

/-- The prompt literal `"Chameleon>"` stripped when `prompt` is latched on. -/
def chameleonTok : List Char := "Chameleon>".data

/-! ## `Discovery::send_command` response handling (`src/laser/discoverynx.rs`) -/

/-- The message built for the echo-mismatch `InvalidResponseError` in
`Discovery::send_command`. -/
def echoMismatchMsg (command_str buf : List Char) : List Char :=
  "Echo does not match command. Expected : ".data ++ command_str ++
    ", Got : ".data ++ buf

/-- The message built for the no-echo `InvalidResponseError` in
`Discovery::send_command`. -/
def noResponseMsg (buf : List Char) : List Char :=
  "Expected no response, Got : ".data ++ buf

/-- The response-processing tail of `Discovery::send_command`
(`src/laser/discoverynx.rs`): given the session flags `echo` and `prompt`,
the wire form `command_str` of the command just sent, and the line `buf`
read back (terminator included), produce the `Result`.  `none` models the
panic of the `[1]` index when the prompt marker is missing. -/
def sendCommandParse (echo prompt : Bool) (command_str buf : List Char) :
    Option (Except CoherentErrorM Unit) :=
  if containsSub buf cneTok then
    some (.error .CommandNotExecutedError)
  else
    match (if prompt then (splitStr buf chameleonTok).get? 1 else some buf) with
    | none => none
    | some buf =>
      if echo then
        match splitStr buf (command_str ++ [' ']) with
        | [_, tail] =>
          if trimL tail ≠ [] then
            some (.error (.InvalidArgumentsError tail))
          else
            some (.ok ())
        | _ => some (.error (.InvalidResponseError (echoMismatchMsg command_str buf)))
      else
        if trimL buf ≠ [] then
          some (.error (.InvalidResponseError (noResponseMsg buf)))
        else
          some (.ok ())

/-! ## `Discovery::query` response handling and the typed parsers -/

/-- The residual-extraction part of `Discovery::query`
(`src/laser/discoverynx.rs`): strip the prompt (indexing `[1]`, a panic if
absent), trim, split on the echoed query token followed by a space, and
index `[1]` when echo is on (`[0]` otherwise).  `none` models the panics
of those indexings; the returned residual is handed to the query's typed
parser. -/
def queryResidual (echo prompt : Bool) (query_str buf : List Char) :
    Option (List Char) :=
  match (if prompt then (splitStr buf chameleonTok).get? 1 else some buf) with
  | none => none
  | some b =>
    let parts := splitStr (trimL b) (query_str ++ [' '])
    if echo then parts.get? 1 else parts.get? 0

/-- Decimal value of a digit string. -/
def digitsToNat (s : List Char) : Nat :=
  s.foldl (fun a c => a * 10 + (c.toNat - 48)) 0

/-- Rust `str::parse` at `u8`: an optional `+` sign, then one or more
decimal digits, with the value at most 255; anything else errors. -/
def parseU8L (s : List Char) : Option Nat :=
  let t := if s.head? = some '+' then s.tail else s
  if t ≠ [] ∧ t.all Char.isDigit then
    let n := digitsToNat t
    if n ≤ 255 then some n else none
  else none

/-- Rust `str::parse` at `i32`: an optional sign, then one or more decimal
digits, with the value within the 32-bit range. -/
def parseI32L (s : List Char) : Option Int :=
  let (neg, t) := match s with
    | '+' :: r => (false, r)
    | '-' :: r => (true, r)
    | r => (false, r)
  if t ≠ [] ∧ t.all Char.isDigit then
    let v : Int := if neg then -(digitsToNat t : Int) else (digitsToNat t : Int)
    if -(2 ^ 31 : Int) ≤ v ∧ v < 2 ^ 31 then some v else none
  else none

/-- The result of Rust `str::parse` at `f32`, keeping the special values
apart; finite numbers are carried exactly as rationals (no claim depends
on the rounded value). -/
inductive F32Lit
  | num (q : ℚ)
  | infinite (neg : Bool)
  | nan
deriving DecidableEq, Repr

/-- Exponent part of the float grammar: optional sign then one or more
digits, consuming the whole remainder. -/
def parseExpPart (s : List Char) : Option Int :=
  let (neg, t) := match s with
    | '+' :: r => (false, r)
    | '-' :: r => (true, r)
    | r => (false, r)
  if t ≠ [] ∧ t.all Char.isDigit then
    some (if neg then -(digitsToNat t : Int) else (digitsToNat t : Int))
  else none

/-- Significand-and-exponent value as an exact rational. -/
def decimalVal (ip fp : List Char) (e : Int) : ℚ :=
  ((digitsToNat ip : ℚ) + (digitsToNat fp : ℚ) / (10 : ℚ) ^ fp.length) *
    (10 : ℚ) ^ e

/-- The unsigned-number part of the Rust `f32` grammar: digits, an
optional point with further digits (at least one digit in the significand
overall), and an optional exponent. -/
def parseNumberPart (s : List Char) : Option ℚ :=
  let ip := s.takeWhile Char.isDigit
  let r1 := s.dropWhile Char.isDigit
  match r1 with
  | [] => if ip = [] then none else some (decimalVal ip [] 0)
  | '.' :: r2 =>
    let fp := r2.takeWhile Char.isDigit
    let r3 := r2.dropWhile Char.isDigit
    if ip = [] ∧ fp = [] then none
    else
      match r3 with
      | [] => some (decimalVal ip fp 0)
      | e :: r4 =>
        if e = 'e' ∨ e = 'E' then
          (parseExpPart r4).map fun x => decimalVal ip fp x
        else none
  | e :: r2 =>
    if (e = 'e' ∨ e = 'E') ∧ ip ≠ [] then
      (parseExpPart r2).map fun x => decimalVal ip [] x
    else none

/-- Rust `str::parse` at `f32` (value model): optional sign, then a
case-insensitive `inf`/`infinity`/`nan` or a decimal number. -/
def parseF32L (s : List Char) : Option F32Lit :=
  let (neg, t) := match s with
    | '+' :: r => (false, r)
    | '-' :: r => (true, r)
    | r => (false, r)
  let lower := t.map Char.toLower
  if lower = "inf".data ∨ lower = "infinity".data then some (.infinite neg)
  else if lower = "nan".data then some .nan
  else (parseNumberPart t).map fun q => .num (if neg then -q else q)

/-- `DiscoveryNXQueries::Faults::parse_result`
(`src/laser/discoverynx.rs`): `result.parse().unwrap()` at `u8`; `none`
models the `unwrap` panic. -/
def faultsParseResult (s : List Char) : Option Nat := parseU8L s

/-- `DiscoveryNXQueries::Wavelength::parse_result`: `parse().unwrap()` at
`f32`; `none` models the `unwrap` panic. -/
def wavelengthParseResult (s : List Char) : Option F32Lit := parseF32L s

/-- `DiscoveryNXQueries::Power::parse_result`: `parse().unwrap()` at
`f32`; `none` models the `unwrap` panic. -/
def powerParseResult (s : List Char) : Option F32Lit := parseF32L s

/-- `DiscoveryNXQueries::GddCurve::parse_result`: `parse().unwrap()` at
`i32`; `none` models the `unwrap` panic. -/
def gddCurveParseResult (s : List Char) : Option Int := parseI32L s

/-- `DiscoveryNXQueries::Gdd::parse_result`: `parse().unwrap()` at `f32`;
`none` models the `unwrap` panic. -/
def gddParseResult (s : List Char) : Option F32Lit := parseF32L s

instance {ε α : Type} [DecidableEq ε] [DecidableEq α] :
    DecidableEq (Except ε α) := by
  intro a b
  cases a <;> cases b <;>
    first
      | (apply isFalse; intro h; exact Except.noConfusion h)
      | (rename_i x y
         exact if h : x = y then isTrue (by rw [h])
           else isFalse (by intro hc; cases hc; exact h rfl))

/-! ## `DiscoveryNXStatus` and `Discovery::status`
(`src/laser/discoverynx.rs`) -/

/-- `DiscoveryNXStatus` from `src/laser/discoverynx.rs`; `f32` fields as
`ℚ`, `u8` as `Nat`, `i32` as `Int`. -/
structure DiscoveryNXStatus where
  echo : Bool
  laser : LaserState
  variable_shutter : ShutterState
  fixed_shutter : ShutterState
  keyswitch : Bool
  faults : Nat
  fault_text : String
  tuning : TuningStatus
  alignment_var : Bool
  alignment_fixed : Bool
  status : String
  wavelength : ℚ
  power_var : ℚ
  power_fixed : ℚ
  gdd_curve : Int
  gdd_curve_n : String
  gdd : ℚ
deriving DecidableEq, Repr

/-- The seventeen query values issued by `Discovery::status`, one tag per
call site (the `Shutter`, `AlignmentMode` and `Power` tags carry their
`DiscoveryLaser` argument in the name). -/
inductive StatusQuery
  | echo
  | laser
  | shutterVar
  | shutterFixed
  | keyswitch
  | faults
  | faultText
  | tuning
  | alignVar
  | alignFixed
  | statusText
  | wavelength
  | powerVar
  | powerFixed
  | gddCurve
  | gddCurveN
  | gdd
deriving DecidableEq, Repr

/-- The declared `Result` type of each query (`type Result = ...` in
`src/laser/discoverynx.rs`). -/
@[reducible]
def StatusQuery.Result : StatusQuery → Type
  | .echo => Bool
  | .laser => LaserState
  | .shutterVar => ShutterState
  | .shutterFixed => ShutterState
  | .keyswitch => Bool
  | .faults => Nat
  | .faultText => String
  | .tuning => TuningStatus
  | .alignVar => Bool
  | .alignFixed => Bool
  | .statusText => String
  | .wavelength => ℚ
  | .powerVar => ℚ
  | .powerFixed => ℚ
  | .gddCurve => Int
  | .gddCurveN => String
  | .gdd => ℚ

/-- The order in which `Discovery::status` issues its queries. -/
def statusOrder : List StatusQuery :=
  [.echo, .laser, .shutterVar, .shutterFixed, .keyswitch, .faults,
   .faultText, .tuning, .alignVar, .alignFixed, .statusText, .wavelength,
   .powerVar, .powerFixed, .gddCurve, .gddCurveN, .gdd]

/-- Position of a query in `statusOrder`. -/
def StatusQuery.idx : StatusQuery → Nat
  | .echo => 0
  | .laser => 1
  | .shutterVar => 2
  | .shutterFixed => 3
  | .keyswitch => 4
  | .faults => 5
  | .faultText => 6
  | .tuning => 7
  | .alignVar => 8
  | .alignFixed => 9
  | .statusText => 10
  | .wavelength => 11
  | .powerVar => 12
  | .powerFixed => 13
  | .gddCurve => 14
  | .gddCurveN => 15
  | .gdd => 16

/-- `Discovery::status` from `src/laser/discoverynx.rs`, over an oracle
`o` standing for `self.query(...)` (the serial round trip of each issued
query).  The `?` chain of the source becomes nested matches; alongside the
`Result`, the list of queries issued is returned in issue order, so that
the orchestration (which queries, in which order) is part of the model's
observable behaviour. -/
def statusRun (o : ∀ q : StatusQuery, Except CoherentErrorM q.Result) :
    Except CoherentErrorM DiscoveryNXStatus × List StatusQuery :=
  match o .echo with
  | .error e => (.error e, statusOrder.take 1)
  | .ok echo =>
  match o .laser with
  | .error e => (.error e, statusOrder.take 2)
  | .ok laser =>
  match o .shutterVar with
  | .error e => (.error e, statusOrder.take 3)
  | .ok variable_shutter =>
  match o .shutterFixed with
  | .error e => (.error e, statusOrder.take 4)
  | .ok fixed_shutter =>
  match o .keyswitch with
  | .error e => (.error e, statusOrder.take 5)
  | .ok keyswitch =>
  match o .faults with
  | .error e => (.error e, statusOrder.take 6)
  | .ok faults =>
  match o .faultText with
  | .error e => (.error e, statusOrder.take 7)
  | .ok fault_text =>
  match o .tuning with
  | .error e => (.error e, statusOrder.take 8)
  | .ok tuning =>
  match o .alignVar with
  | .error e => (.error e, statusOrder.take 9)
  | .ok alignment_var =>
  match o .alignFixed with
  | .error e => (.error e, statusOrder.take 10)
  | .ok alignment_fixed =>
  match o .statusText with
  | .error e => (.error e, statusOrder.take 11)
  | .ok status =>
  match o .wavelength with
  | .error e => (.error e, statusOrder.take 12)
  | .ok wavelength =>
  match o .powerVar with
  | .error e => (.error e, statusOrder.take 13)
  | .ok power_var =>
  match o .powerFixed with
  | .error e => (.error e, statusOrder.take 14)
  | .ok power_fixed =>
  match o .gddCurve with
  | .error e => (.error e, statusOrder.take 15)
  | .ok gdd_curve =>
  match o .gddCurveN with
  | .error e => (.error e, statusOrder.take 16)
  | .ok gdd_curve_n =>
  match o .gdd with
  | .error e => (.error e, statusOrder.take 17)
  | .ok gdd =>
    (.ok ⟨echo, laser, variable_shutter, fixed_shutter, keyswitch, faults,
          fault_text, tuning, alignment_var, alignment_fixed, status,
          wavelength, power_var, power_fixed, gdd_curve, gdd_curve_n, gdd⟩,
     statusOrder)

/-! ## `TcpError` and `NetworkLaserServer::get_laser` (`src/network.rs`) -/

/-- `TcpError` from `src/network.rs` (payloads of the wrapped
serialization and I/O errors dropped; no claim inspects them). -/
inductive TcpErr
  | MultipleReferencesToLaser
  | MutexPoisoned
  | CoherentError (e : CoherentErrorM)
  | IoError
  | SerializationEncodeError
  | SerializationDecodeError
  | CommandError
  | NoLaserStatus
  | NotPrimaryClient
deriving DecidableEq, Repr

/-- The server state observed by `NetworkLaserServer::get_laser`:
the polling flag, the `_laser : Option<Arc<Mutex<L>>>` field (with the
count of `Arc` clones of the laser held outside this server value —
`Arc::try_unwrap` succeeds exactly when this count is zero), and whether
the laser mutex is poisoned. -/
structure ServerLaserState (L : Type) where
  polling : Bool
  laser : Option L
  otherArcRefs : Nat
  mutexPoisoned : Bool

/-- `NetworkLaserServer::stop_polling` as far as `get_laser` observes it:
the polling flag is cleared (and the three tasks joined). -/
def stopPolling {L : Type} (s : ServerLaserState L) : ServerLaserState L :=
  { s with polling := false }

/-- `NetworkLaserServer::get_laser` from `src/network.rs`: first
`stop_polling`, then `self._laser.take().ok_or(MultipleReferencesToLaser)?`
(the `None` case), then `Arc::try_unwrap(...)` whose failure — other
references remaining — is `map_err`-ed to `MutexPoisoned`, then
`.into_inner().unwrap()` (a panic, modelled `none`, when the mutex is
poisoned). -/
def getLaser {L : Type} (s : ServerLaserState L) :
    Option (Except TcpErr L) × ServerLaserState L :=
  let s1 := stopPolling s
  match s1.laser with
  | none => (some (.error .MultipleReferencesToLaser), s1)
  | some l =>
    if s1.otherArcRefs ≠ 0 then
      (some (.error .MutexPoisoned), { s1 with laser := none })
    else if s1.mutexPoisoned then
      (none, { s1 with laser := none })
    else
      (some (.ok l), { s1 with laser := none })

/-! ## TCP framing (`src/network.rs`) -/

/-- Byte string of an ASCII literal. -/
def strBytes (s : String) : List Nat := s.data.map Char.toNat

/-- `STATUS_MARKER` from `src/network.rs`. -/
def STATUS_MARKER_B : List Nat := strBytes "Status: "

/-- `COMMAND_MARKER` from `src/network.rs`. -/
def COMMAND_MARKER_B : List Nat := strBytes "Command: "

/-- `TERMINATOR` from `src/network.rs` (the byte `10`). -/
def TERMINATOR_B : List Nat := [10]

/-- `DEMAND_PRIMARY_CLIENT` from `src/network.rs`. -/
def DEMAND_PRIMARY_CLIENT_B : List Nat := strBytes "DEMAND PRIMARY CLIENT\n"

/-- `FORGET_PRIMARY_CLIENT` from `src/network.rs`. -/
def FORGET_PRIMARY_CLIENT_B : List Nat := strBytes "FORGET PRIMARY CLIENT\n"

/-- `FORGET_ME` from `src/network.rs`. -/
def FORGET_ME_B : List Nat := strBytes "FORGET ME\n"

/-- `COMMAND_SUCCESSFUL` from `src/network.rs`. -/
def COMMAND_SUCCESSFUL_B : List Nat := strBytes "COMMAND SUCCESSFUL\n"

/-- `COMMAND_FAILED` from `src/network.rs`. -/
def COMMAND_FAILED_B : List Nat := strBytes "COMMAND FAILED\n"

/-- `NOT_PRIMARY_CLIENT` from `src/network.rs`. -/
def NOT_PRIMARY_CLIENT_B : List Nat := strBytes "NOT PRIMARY CLIENT\n"

/-- Whether the window of `s` starting at `i` equals `m`
(`windows(m.len())` entry `i` of Rust). -/
def matchAtB (m s : List Nat) (i : Nat) : Bool :=
  (s.drop i).take m.length == m

/-- Downward scan for `rposition?`: examines window indices
`k-1, k-2, ..., 0`. -/
def rpositionAux (m s : List Nat) : Nat → Option Nat
  | 0 => none
  | k + 1 => if matchAtB m s k then some k else rpositionAux m s k

/-- Rust `stream.windows(m.len()).rposition(|w| w == m)`: the index of the
last window of `s` equal to `m`. -/
def rpositionW (m s : List Nat) : Option Nat :=
  rpositionAux m s (s.length + 1 - m.length)

/-- Upward scan for `positionW`. -/
def positionAux (m s : List Nat) : Nat → Nat → Option Nat
  | 0, _ => none
  | fuel + 1, i => if matchAtB m s i then some i else positionAux m s fuel (i + 1)

/-- Rust `stream.windows(m.len()).position(|w| w == m)`: the index of the
first window of `s` equal to `m`. -/
def positionW (m s : List Nat) : Option Nat :=
  positionAux m s (s.length + 1 - m.length) 0

/-- `deserialize_laser_status` from `src/network.rs`, generic in the
payload decoder `dec` (standing for `rmp_serde` deserialization, which
reads one value from the front of the byte slice and ignores what
follows).  The source locates the *last* occurrence of `STATUS_MARKER`
(`rposition`), then takes the suffix and cuts it at the first `TERMINATOR`
byte (`split(|&x| x == TERMINATOR[0]).next()`, which is always `Some`, so
the source's `else NoLaserStatus` branch there is unreachable), and hands
the cut slice to the decoder. -/
def deserializeLaserStatus {S : Type} (dec : List Nat → Option S)
    (stream : List Nat) : Except TcpErr S :=
  match rpositionW STATUS_MARKER_B stream with
  | some start_idx =>
    let status := stream.drop (start_idx + STATUS_MARKER_B.length)
    let serialized := status.takeWhile (fun x => x != 10)
    match dec serialized with
    | some st => .ok st
    | none => .error .SerializationDecodeError
  | none => .error .NoLaserStatus

/-- `deserialize_command` from `src/network.rs`, generic in the payload
decoder: same shape as `deserializeLaserStatus` but locating the *first*
occurrence of `COMMAND_MARKER` (`position`). -/
def deserializeCommand {C : Type} (dec : List Nat → Option C)
    (stream : List Nat) : Except TcpErr C :=
  match positionW COMMAND_MARKER_B stream with
  | some start_idx =>
    let command := stream.drop (start_idx + COMMAND_MARKER_B.length)
    let serialized := command.takeWhile (fun x => x != 10)
    match dec serialized with
    | some c => .ok c
    | none => .error .SerializationDecodeError
  | none => .error .NoLaserStatus

/-! ## The command task (`NetworkLaserServer::poll`, command thread) -/

/-- The three reply literals the command task writes back to a peer. -/
inductive Reply
  | success
  | failed
  | notPrimary
deriving DecidableEq, Repr

/-- Result of one command-task handling of one peer's received bytes. -/
structure CommandStepOut (σ : Type) where
  primary : Option Nat
  sess : σ
  replies : List Reply

/-- One iteration of the command thread of `NetworkLaserServer::poll`
(`src/network.rs`) for a single peer: `primary` is the thread's
primary-client slot (a peer identified by its remote address, modelled as
a `Nat`), `sess` the laser session guarded by the mutex, `peer` the
address of the peer whose bytes `buf` were just read.  The four branches
are sequential `if`s in the source (their guards are mutually exclusive on
verb buffers since the literals differ from the first byte).  In the
`FORGET PRIMARY CLIENT` branch the source `take()`s the slot and then
replies according to `try_lock` on the taken peer handle; that mutex is
only ever locked transiently by this same thread, so `try_lock` succeeds
and both the `Some` and `None` cases reply `COMMAND SUCCESSFUL` with the
slot left cleared. -/
def commandTaskStep {σ Cmd : Type}
    (sendCmd : σ → Cmd → Except CoherentErrorM Unit × σ)
    (decCmd : List Nat → Option Cmd)
    (primary : Option Nat) (sess : σ) (peer : Nat) (buf : List Nat) :
    CommandStepOut σ :=
  let s1 : Option Nat × List Reply :=
    if FORGET_PRIMARY_CLIENT_B.isPrefixOf buf then
      (none, [.success])
    else (primary, [])
  let s2 : Option Nat × List Reply :=
    if DEMAND_PRIMARY_CLIENT_B.isPrefixOf buf then
      match s1.1 with
      | none => (some peer, s1.2 ++ [.success])
      | some p => (some p, s1.2 ++ [.notPrimary])
    else s1
  let s3 : Option Nat × List Reply :=
    if FORGET_ME_B.isPrefixOf buf then
      match s2.1 with
      | some p =>
        if p = peer then (none, s2.2 ++ [.success])
        else (some p, s2.2 ++ [.failed])
      | none => (none, s2.2 ++ [.failed])
    else s2
  match deserializeCommand decCmd buf with
  | .ok command =>
    match s3.1 with
    | some p =>
      if p ≠ peer then ⟨some p, sess, s3.2 ++ [.notPrimary]⟩
      else
        let r := sendCmd sess command
        ⟨some p, r.2,
         s3.2 ++ [match r.1 with | .ok _ => .success | .error _ => .failed]⟩
    | none =>
      let r := sendCmd sess command
      ⟨none, r.2,
       s3.2 ++ [match r.1 with | .ok _ => .success | .error _ => .failed]⟩
  | .error _ => ⟨s3.1, sess, s3.2⟩

/-! ## The client reply-wait loop (`call_and_wait_for_response!`,
`src/network.rs`) -/

/-- Outcome of the client wait loop on a finite trace of reads. -/
inductive WaitOutcome
  | okUnit
  | cmdError
  | notPrimaryClient
  | panicked
  | pending
deriving DecidableEq, Repr

/-- One `read(&mut response)`: the chunk overwrites the buffer from
index 0, the tail keeps its old contents. -/
def overwriteBuffer (buffer chunk : List Nat) : List Nat :=
  chunk ++ buffer.drop chunk.length

/-- The loop of `call_and_wait_for_response!` from `src/network.rs`, run
on a finite trace of successful reads (each element one chunk delivered by
`read`): the chunk is written over the front of the same 1024-byte
`response` buffer, the cumulative `response_ptr` grows by its length, and
the slice `response[0..response_ptr]` — a panic, `panicked`, as soon as
`response_ptr` exceeds 1024 — is prefix-tested against the three reply
literals in the source's order.  `pending` means the trace was exhausted
with the loop still blocked in the next `read`. -/
def waitLoop : List Nat → Nat → List (List Nat) → WaitOutcome
  | _, _, [] => .pending
  | buffer, ptr, chunk :: rest =>
    let buffer2 := overwriteBuffer buffer chunk
    let ptr2 := ptr + chunk.length
    if 1024 < ptr2 then .panicked
    else
      let window := buffer2.take ptr2
      if COMMAND_SUCCESSFUL_B.isPrefixOf window then .okUnit
      else if COMMAND_FAILED_B.isPrefixOf window then .cmdError
      else if NOT_PRIMARY_CLIENT_B.isPrefixOf window then .notPrimaryClient
      else waitLoop buffer2 ptr2 rest

/-- The `[0u8; 1024]` buffer the macro declares. -/
def initialResponseBuffer : List Nat := List.replicate 1024 0

/-- The reply-wait phase shared by `command`, `demand_primary_client`,
`forget_me` and `force_forget_primary_client`. -/
def callAndWait (chunks : List (List Nat)) : WaitOutcome :=
  waitLoop initialResponseBuffer 0 chunks

/-! ## The status-record payload encoding

Modelled from the spec: the concrete binary encoding of serialized values
is declared out of scope in §1 and §6 of the specification, which requires
only a self-describing, length-prefixed encoding that decodes one value
from the front of a byte string without relying on a terminator byte (the
reference implementation uses MessagePack via `rmp_serde`, external to
`src/`).  The model below follows the MessagePack layout for the
`DiscoveryNXStatus` record: an array header, booleans as `194`/`195`,
unit enum variants as their index, `u8` as a fixint or a `204`-tagged
byte, strings as length-prefixed byte runs, `f32` as `202` plus the four
big-endian bytes of the bit pattern, and `i32` as `210` plus four
big-endian two's-complement bytes. -/

/-- Big-endian bytes of a 32-bit word. -/
def w32 (n : Nat) : List Nat :=
  [n / 2 ^ 24 % 256, n / 2 ^ 16 % 256, n / 2 ^ 8 % 256, n % 256]

/-- Read four big-endian bytes. -/
def r32 : List Nat → Option (Nat × List Nat)
  | a :: b :: c :: d :: rest => some (((a * 256 + b) * 256 + c) * 256 + d, rest)
  | _ => none

/-- Encode a boolean. -/
def encBool (b : Bool) : List Nat := [if b then 195 else 194]

/-- Decode a boolean. -/
def dBool : List Nat → Option (Bool × List Nat)
  | 194 :: rest => some (false, rest)
  | 195 :: rest => some (true, rest)
  | _ => none

/-- Encode the `LaserState` variant by index. -/
def encLaserState : LaserState → List Nat
  | .Standby => [0]
  | .On => [1]

/-- Decode a `LaserState` variant. -/
def dLaserState : List Nat → Option (LaserState × List Nat)
  | 0 :: rest => some (.Standby, rest)
  | 1 :: rest => some (.On, rest)
  | _ => none

/-- Encode the `ShutterState` variant by index. -/
def encShutter : ShutterState → List Nat
  | .Open => [0]
  | .Closed => [1]

/-- Decode a `ShutterState` variant. -/
def dShutter : List Nat → Option (ShutterState × List Nat)
  | 0 :: rest => some (.Open, rest)
  | 1 :: rest => some (.Closed, rest)
  | _ => none

/-- Encode the `TuningStatus` variant by index. -/
def encTuning : TuningStatus → List Nat
  | .Tuning => [0]
  | .Ready => [1]

/-- Decode a `TuningStatus` variant. -/
def dTuning : List Nat → Option (TuningStatus × List Nat)
  | 0 :: rest => some (.Tuning, rest)
  | 1 :: rest => some (.Ready, rest)
  | _ => none

/-- Encode a `u8`: a positive fixint below 128, otherwise tagged `204`. -/
def encU8 (n : Nat) : List Nat := if n < 128 then [n] else [204, n]

/-- Decode a `u8`. -/
def dU8 : List Nat → Option (Nat × List Nat)
  | [] => none
  | h :: rest =>
    if h < 128 then some (h, rest)
    else if h = 204 then
      match rest with
      | b :: rest2 => some (b, rest2)
      | [] => none
    else none

/-- Encode a short byte string with a length-carrying header byte
(`160 + length`, for lengths below 32). -/
def encStrB (s : List Nat) : List Nat := (160 + s.length) :: s

/-- Decode a length-prefixed short byte string. -/
def dStrB : List Nat → Option (List Nat × List Nat)
  | [] => none
  | h :: rest =>
    if 160 ≤ h ∧ h < 192 then
      let n := h - 160
      if n ≤ rest.length then some (rest.take n, rest.drop n) else none
    else none

/-- Encode an `f32` bit pattern: tag `202` then four big-endian bytes. -/
def encF32 (bits : Nat) : List Nat := 202 :: w32 bits

/-- Decode an `f32` bit pattern. -/
def dF32 : List Nat → Option (Nat × List Nat)
  | 202 :: rest => r32 rest
  | _ => none

/-- Encode an `i32`: tag `210` then four big-endian two's-complement
bytes. -/
def encI32 (i : Int) : List Nat := 210 :: w32 ((i % (2 ^ 32 : Int)).toNat)

/-- Decode an `i32`. -/
def dI32 : List Nat → Option (Int × List Nat)
  | 210 :: rest =>
    (r32 rest).map fun p =>
      (if p.1 < 2 ^ 31 then (p.1 : Int) else (p.1 : Int) - 2 ^ 32, p.2)
  | _ => none

/-- The serialized content of `DiscoveryNXStatus` as it crosses the wire:
same fields in the same order, with strings as byte runs and `f32` fields
as their 32-bit patterns (the encoding transports raw bits). -/
structure StatusRecord where
  echo : Bool
  laser : LaserState
  variable_shutter : ShutterState
  fixed_shutter : ShutterState
  keyswitch : Bool
  faults : Nat
  fault_text : List Nat
  tuning : TuningStatus
  alignment_var : Bool
  alignment_fixed : Bool
  status : List Nat
  wavelength : Nat
  power_var : Nat
  power_fixed : Nat
  gdd_curve : Int
  gdd_curve_n : List Nat
  gdd : Nat
deriving DecidableEq, Repr

/-- Ranges under which the encoding is exact: `u8` in range, short
strings, 32-bit `f32` patterns, `i32` in the 32-bit two's-complement
range. -/
def StatusRecord.wf (x : StatusRecord) : Prop :=
  x.faults < 256 ∧ x.fault_text.length < 32 ∧ x.status.length < 32 ∧
    x.gdd_curve_n.length < 32 ∧ x.wavelength < 2 ^ 32 ∧
    x.power_var < 2 ^ 32 ∧ x.power_fixed < 2 ^ 32 ∧ x.gdd < 2 ^ 32 ∧
    -(2 ^ 31 : Int) ≤ x.gdd_curve ∧ x.gdd_curve < 2 ^ 31

instance (x : StatusRecord) : Decidable x.wf := by
  unfold StatusRecord.wf; infer_instance

/-- Encode a status record: a 17-element array header (`220 0 17`)
followed by the encoded fields in declaration order. -/
def encodeStatusRecord (x : StatusRecord) : List Nat :=
  [220, 0, 17] ++ encBool x.echo ++ encLaserState x.laser ++
    encShutter x.variable_shutter ++ encShutter x.fixed_shutter ++
    encBool x.keyswitch ++ encU8 x.faults ++ encStrB x.fault_text ++
    encTuning x.tuning ++ encBool x.alignment_var ++
    encBool x.alignment_fixed ++ encStrB x.status ++
    encF32 x.wavelength ++ encF32 x.power_var ++ encF32 x.power_fixed ++
    encI32 x.gdd_curve ++ encStrB x.gdd_curve_n ++ encF32 x.gdd

/-- Decode one status record from the front of a byte string, returning
the remainder (the encoding is self-delimiting; trailing bytes are left
untouched, as `rmp_serde` deserialization leaves them unread). -/
def decodeStatusRecord (b : List Nat) : Option (StatusRecord × List Nat) :=
  match b with
  | 220 :: 0 :: 17 :: r0 =>
    match dBool r0 with
    | none => none
    | some (echo, r1) =>
    match dLaserState r1 with
    | none => none
    | some (laser, r2) =>
    match dShutter r2 with
    | none => none
    | some (variable_shutter, r3) =>
    match dShutter r3 with
    | none => none
    | some (fixed_shutter, r4) =>
    match dBool r4 with
    | none => none
    | some (keyswitch, r5) =>
    match dU8 r5 with
    | none => none
    | some (faults, r6) =>
    match dStrB r6 with
    | none => none
    | some (fault_text, r7) =>
    match dTuning r7 with
    | none => none
    | some (tuning, r8) =>
    match dBool r8 with
    | none => none
    | some (alignment_var, r9) =>
    match dBool r9 with
    | none => none
    | some (alignment_fixed, r10) =>
    match dStrB r10 with
    | none => none
    | some (status, r11) =>
    match dF32 r11 with
    | none => none
    | some (wavelength, r12) =>
    match dF32 r12 with
    | none => none
    | some (power_var, r13) =>
    match dF32 r13 with
    | none => none
    | some (power_fixed, r14) =>
    match dI32 r14 with
    | none => none
    | some (gdd_curve, r15) =>
    match dStrB r15 with
    | none => none
    | some (gdd_curve_n, r16) =>
    match dF32 r16 with
    | none => none
    | some (gdd, r17) =>
      some (⟨echo, laser, variable_shutter, fixed_shutter, keyswitch,
             faults, fault_text, tuning, alignment_var, alignment_fixed,
             status, wavelength, power_var, power_fixed, gdd_curve,
             gdd_curve_n, gdd⟩, r17)
  | _ => none

/-- The payload decoder handed to `deserializeLaserStatus`: decode one
record from the front, ignore the remainder. -/
def decStatusPayload (b : List Nat) : Option StatusRecord :=
  (decodeStatusRecord b).map Prod.fst

/-- A full status record on the wire:
`STATUS_MARKER | payload | TERMINATOR` as the broadcast task writes it. -/
def statusFrame (x : StatusRecord) : List Nat :=
  STATUS_MARKER_B ++ encodeStatusRecord x ++ TERMINATOR_B

/-! ## Concrete instances used by witnesses and counterexamples -/

/-- A query oracle answering every status query successfully (the debug
laser's synthetic values). -/
def statusOracleOk : ∀ q : StatusQuery, Except CoherentErrorM q.Result
  | .echo => .ok true
  | .laser => .ok .On
  | .shutterVar => .ok .Open
  | .shutterFixed => .ok .Closed
  | .keyswitch => .ok true
  | .faults => .ok 0
  | .faultText => .ok "No faults"
  | .tuning => .ok .Ready
  | .alignVar => .ok false
  | .alignFixed => .ok false
  | .statusText => .ok "OK"
  | .wavelength => .ok 920
  | .powerVar => .ok 1000
  | .powerFixed => .ok 5000
  | .gddCurve => .ok 0
  | .gddCurveN => .ok "Default"
  | .gdd => .ok 0

/-- A query oracle whose `?F` (faults) round trip fails, all earlier
queries succeeding. -/
def statusOracleFailFaults : ∀ q : StatusQuery, Except CoherentErrorM q.Result
  | .echo => .ok true
  | .laser => .ok .On
  | .shutterVar => .ok .Open
  | .shutterFixed => .ok .Closed
  | .keyswitch => .ok true
  | .faults => .error .TimeoutError
  | .faultText => .ok "No faults"
  | .tuning => .ok .Ready
  | .alignVar => .ok false
  | .alignFixed => .ok false
  | .statusText => .ok "OK"
  | .wavelength => .ok 920
  | .powerVar => .ok 1000
  | .powerFixed => .ok 5000
  | .gddCurve => .ok 0
  | .gddCurveN => .ok "Default"
  | .gdd => .ok 0

/-- A valid status record whose fault register reads 10: its encoded
payload contains the byte `10`, the `TERMINATOR` byte. -/
def statusRecordFaults10 : StatusRecord where
  echo := false
  laser := .Standby
  variable_shutter := .Open
  fixed_shutter := .Open
  keyswitch := false
  faults := 10
  fault_text := []
  tuning := .Ready
  alignment_var := false
  alignment_fixed := false
  status := []
  wavelength := 0
  power_var := 0
  power_fixed := 0
  gdd_curve := 0
  gdd_curve_n := []
  gdd := 0

/-- A status record with a terminator-free encoding (fault register 7). -/
def statusRecordA : StatusRecord :=
  { statusRecordFaults10 with faults := 7, status := strBytes "OK" }

/-- A second terminator-free status record, distinct from
`statusRecordA`. -/
def statusRecordB : StatusRecord :=
  { statusRecordFaults10 with faults := 3, echo := true }

/-- A 600-byte run of `S` bytes: long enough to overwrite every reply
literal, matching none of them. -/
def statusNoiseChunk : List Nat := List.replicate 600 83

/-- A short status-like chunk, not starting with any reply literal. -/
def statusHeadChunk : List Nat := strBytes "Status: 123\n"

/-! # Theorems -/

/-! ## C6: command serialization -/

/-- C6: every command variant serializes to exactly the mapped token
string of §4.1 — `Echo` to `E=1`/`E=0`, `LaserPower` to `L=1`/`L=0`,
variable/fixed `Shutter` to `S=`/`SFIXED=`, variable/fixed
`AlignmentMode` to `ALIGN=`/`ALIGNFIXED=`, `Wavelength` to `WV=` with the
float display, `FaultClear` to `FC`, `Heartbeat` to `HB`, `GddCurveIndex`
to `GDD=` with the `u8` display, `GddCurveName` to `GDDCURVEN=`, `Gdd` to
`GDD=` with the float display, `SetCurveName` to `SETCURVEN=` — and the
session appends the `CR LF` terminator to every sent command. -/
theorem command_wire_serialization :
    ∀ (fdisp : ℚ → String) (w g : ℚ) (n : Nat) (s t : String),
      commandToString fdisp (.Echo true) = "E=1" ∧
      commandToString fdisp (.Echo false) = "E=0" ∧
      commandToString fdisp (.Laser .On) = "L=1" ∧
      commandToString fdisp (.Laser .Standby) = "L=0" ∧
      commandToString fdisp (.Shutter .VariableWavelength .Open) = "S=1" ∧
      commandToString fdisp (.Shutter .VariableWavelength .Closed) = "S=0" ∧
      commandToString fdisp (.Shutter .FixedWavelength .Open) = "SFIXED=1" ∧
      commandToString fdisp (.Shutter .FixedWavelength .Closed) = "SFIXED=0" ∧
      commandToString fdisp (.AlignmentMode .VariableWavelength true) = "ALIGN=1" ∧
      commandToString fdisp (.AlignmentMode .VariableWavelength false) = "ALIGN=0" ∧
      commandToString fdisp (.AlignmentMode .FixedWavelength true) = "ALIGNFIXED=1" ∧
      commandToString fdisp (.AlignmentMode .FixedWavelength false) = "ALIGNFIXED=0" ∧
      commandToString fdisp (.Wavelength w) = "WV=" ++ fdisp w ∧
      commandToString fdisp .FaultClear = "FC" ∧
      commandToString fdisp .Heartbeat = "HB" ∧
      commandToString fdisp (.GddCurve n) = "GDD=" ++ toString n ∧
      commandToString fdisp (.GddCurveN s) = "GDDCURVEN=" ++ s ∧
      commandToString fdisp (.Gdd g) = "GDD=" ++ fdisp g ∧
      commandToString fdisp (.SetCurveN t) = "SETCURVEN=" ++ t ∧
      (∀ c : DiscoveryNXCommands,
        sendSerialCommand (commandToString fdisp c) =
          commandToString fdisp c ++ "\r\n") := by
  intro fdisp w g n s t
  exact ⟨rfl, rfl, rfl, rfl, rfl, rfl, rfl, rfl, rfl, rfl, rfl, rfl, rfl,
         rfl, rfl, rfl, rfl, rfl, rfl, fun c => rfl⟩

/-! ## C4: the debug session -/

/-- C4: the debug session accepts every command and mutates its fields,
except that `Wavelength` fails (leaving the whole state unchanged)
exactly when the value is outside `[700, 1000]`, and `Gdd` fails exactly
when the value is outside `[−10000, 10000]`; every other command returns
`Ok`; and `query` always fails, for every query of any type. -/
theorem debug_laser_bounds_query :
    ∀ (d : DebugLaser) (w g : ℚ),
      ((w < 700 ∨ w > 1000) →
        d.sendCommand (.Wavelength w) = (.error .CommandNotExecutedError, d)) ∧
      (¬(w < 700 ∨ w > 1000) →
        d.sendCommand (.Wavelength w) =
          (.ok (), { d with variable_wavelength := w })) ∧
      ((g < -10000 ∨ g > 10000) →
        d.sendCommand (.Gdd g) = (.error .CommandNotExecutedError, d)) ∧
      (¬(g < -10000 ∨ g > 10000) →
        d.sendCommand (.Gdd g) = (.ok (), { d with gdd := g })) ∧
      (∀ c : DiscoveryNXCommands, (∀ w2, c ≠ .Wavelength w2) →
        (∀ g2, c ≠ .Gdd g2) → (d.sendCommand c).1 = .ok ()) ∧
      (∀ (α β : Type) (q : α),
        (DebugLaser.query d q : Except CoherentErrorM β) =
          .error .CommandNotExecutedError) := by
  intro d w g
  refine ⟨?_, ?_, ?_, ?_, ?_, fun α β q => rfl⟩
  · intro h; simp only [DebugLaser.sendCommand, if_pos h]
  · intro h; simp only [DebugLaser.sendCommand, if_neg h]
  · intro h; simp only [DebugLaser.sendCommand, if_pos h]
  · intro h; simp only [DebugLaser.sendCommand, if_neg h]
  · intro c h1 h2
    cases c with
    | Wavelength w2 => exact absurd rfl (h1 w2)
    | Gdd g2 => exact absurd rfl (h2 g2)
    | Echo e => rfl
    | Laser st => cases st <;> rfl
    | Shutter l st => cases l <;> rfl
    | FaultClear => rfl
    | AlignmentMode l m => cases l <;> rfl
    | Heartbeat => rfl
    | GddCurve cn => rfl
    | GddCurveN cn => rfl
    | SetCurveN cn => rfl

/-- C4 witness: the bounds theorem applied at the default debug laser
with the out-of-range wavelength 500, the in-range wavelength 800, the
out-of-range GDD 20000 and the `Heartbeat` command. -/
theorem debug_laser_bounds_query_witness :
    DebugLaser.default.sendCommand (.Wavelength 500) =
        (.error .CommandNotExecutedError, DebugLaser.default) ∧
      DebugLaser.default.sendCommand (.Wavelength 800) =
        (.ok (), { DebugLaser.default with variable_wavelength := 800 }) ∧
      DebugLaser.default.sendCommand (.Gdd 20000) =
        (.error .CommandNotExecutedError, DebugLaser.default) ∧
      (DebugLaser.default.sendCommand .Heartbeat).1 = .ok () ∧
      (DebugLaser.default.query () : Except CoherentErrorM Bool) =
        .error .CommandNotExecutedError := by
  obtain ⟨h1, h2, h3, -, h5, h6⟩ :=
    debug_laser_bounds_query DebugLaser.default 500 20000
  obtain ⟨-, h2b, -, -, -, -⟩ :=
    debug_laser_bounds_query DebugLaser.default 800 0
  exact ⟨h1 (by norm_num), h2b (by norm_num), h3 (by norm_num),
         h5 .Heartbeat (fun w2 h => nomatch h) (fun g2 h => nomatch h),
         h6 Unit Bool ()⟩

/-! ## C5: session extraction -/

/-- C5 (code bug): on a server whose session `Arc` has one other live
reference, `get_laser` first clears the polling flag (halting the tasks)
but then returns `MutexPoisoned`: the failure of `Arc::try_unwrap` — the
multiple-references case — is `map_err`-ed to `MutexPoisoned` in the
source, while `MultipleReferencesToLaser` is attached to the unreachable
`self._laser == None` case of the preceding `take().ok_or(...)`. -/
theorem get_laser_multiple_refs_returns_mutex_poisoned :
    (getLaser (L := Unit) ⟨true, some (), 1, false⟩).1 =
        some (.error .MutexPoisoned) ∧
      (getLaser (L := Unit) ⟨true, some (), 1, false⟩).2.polling = false ∧
      (getLaser (L := Unit) ⟨true, some (), 1, false⟩).1 ≠
        some (.error .MultipleReferencesToLaser) := by
  refine ⟨rfl, rfl, ?_⟩
  decide

/-! ## C2: the primary-client state machine -/

/-- C2: the command task's primary-client slot follows the state machine
of §4.5 — an unbound slot binds the demanding peer with COMMAND
SUCCESSFUL; a bound slot answers a demand from another peer with NOT
PRIMARY CLIENT, unchanged; FORGET ME from the bound peer clears the slot
with COMMAND SUCCESSFUL and from any other peer answers COMMAND FAILED,
unchanged; FORGET PRIMARY CLIENT from any peer clears the slot with
COMMAND SUCCESSFUL; and a framed command from a non-primary peer while a
primary is bound answers NOT PRIMARY CLIENT with the command not executed
(session state unchanged).  Generic over the session type, its
`send_command`, and the command payload decoder. -/
theorem primary_client_state_machine :
    ∀ {σ Cmd : Type} (sendCmd : σ → Cmd → Except CoherentErrorM Unit × σ)
      (decCmd : List Nat → Option Cmd) (sess : σ) (peer q : Nat)
      (command : Cmd) (buf : List Nat),
      (commandTaskStep sendCmd decCmd none sess peer
          DEMAND_PRIMARY_CLIENT_B = ⟨some peer, sess, [.success]⟩) ∧
      (q ≠ peer →
        commandTaskStep sendCmd decCmd (some q) sess peer
            DEMAND_PRIMARY_CLIENT_B = ⟨some q, sess, [.notPrimary]⟩) ∧
      (commandTaskStep sendCmd decCmd (some peer) sess peer FORGET_ME_B =
        ⟨none, sess, [.success]⟩) ∧
      (q ≠ peer →
        commandTaskStep sendCmd decCmd (some q) sess peer FORGET_ME_B =
          ⟨some q, sess, [.failed]⟩) ∧
      (∀ primary, commandTaskStep sendCmd decCmd primary sess peer
          FORGET_PRIMARY_CLIENT_B = ⟨none, sess, [.success]⟩) ∧
      (q ≠ peer →
        FORGET_PRIMARY_CLIENT_B.isPrefixOf buf = false →
        DEMAND_PRIMARY_CLIENT_B.isPrefixOf buf = false →
        FORGET_ME_B.isPrefixOf buf = false →
        deserializeCommand decCmd buf = .ok command →
        commandTaskStep sendCmd decCmd (some q) sess peer buf =
          ⟨some q, sess, [.notPrimary]⟩) := by
  intro σ Cmd sendCmd decCmd sess peer q command buf
  refine ⟨rfl, fun _ => rfl, ?_, ?_, fun primary => rfl, ?_⟩
  · simp [commandTaskStep,
      show FORGET_PRIMARY_CLIENT_B.isPrefixOf FORGET_ME_B = false from by decide,
      show DEMAND_PRIMARY_CLIENT_B.isPrefixOf FORGET_ME_B = false from by decide,
      show FORGET_ME_B.isPrefixOf FORGET_ME_B = true from by decide,
      show deserializeCommand decCmd FORGET_ME_B = .error .NoLaserStatus from rfl]
  · intro hq
    simp [commandTaskStep,
      show FORGET_PRIMARY_CLIENT_B.isPrefixOf FORGET_ME_B = false from by decide,
      show DEMAND_PRIMARY_CLIENT_B.isPrefixOf FORGET_ME_B = false from by decide,
      show FORGET_ME_B.isPrefixOf FORGET_ME_B = true from by decide,
      show deserializeCommand decCmd FORGET_ME_B = .error .NoLaserStatus from rfl,
      hq]
  · intro hq hfp hd hm hdec
    simp [commandTaskStep, hfp, hd, hm, hdec, hq]

/-- C2 witness: the state machine applied at a concrete session (a `Nat`
counter), a constant decoder, peers 1 and 2, and a concrete framed
command buffer. -/
theorem primary_client_state_machine_witness :
    commandTaskStep (fun (s : Nat) (_ : Nat) => (.ok (), s))
        (fun _ => some 7) (some 2) 0 1 DEMAND_PRIMARY_CLIENT_B =
      ⟨some 2, 0, [.notPrimary]⟩ ∧
    commandTaskStep (fun (s : Nat) (_ : Nat) => (.ok (), s))
        (fun _ => some 7) (some 2) 0 1 FORGET_ME_B =
      ⟨some 2, 0, [.failed]⟩ ∧
    commandTaskStep (fun (s : Nat) (_ : Nat) => (.ok (), s))
        (fun _ => some 7) (some 2) 0 1 (COMMAND_MARKER_B ++ [0, 10]) =
      ⟨some 2, 0, [.notPrimary]⟩ := by
  obtain ⟨-, h2, -, h4, -, h6⟩ :=
    primary_client_state_machine (fun (s : Nat) (_ : Nat) => (.ok (), s))
      (fun _ => some 7) 0 1 2 7 (COMMAND_MARKER_B ++ [0, 10])
  exact ⟨h2 (by decide), h4 (by decide),
         h6 (by decide) (by decide) (by decide) (by decide) (by decide)⟩

/-! ## C9: partiality of `query` and the numeric parsers -/

/-- Splitting always yields at least one segment. -/
theorem splitFuel_ne_nil (sep : List Char) :
    ∀ (n : Nat) (s : List Char), splitFuel sep n s ≠ [] := by
  intro n
  induction n with
  | zero => intro s; simp [splitFuel]
  | succ k ih =>
    intro s
    cases s with
    | nil => simp [splitFuel]
    | cons c cs =>
      simp only [splitFuel]
      cases hd : dropPre sep (c :: cs) with
      | some rest => simp
      | none =>
        cases hs : splitFuel sep k cs with
        | nil => simp
        | cons a b => simp

/-- C9: the query path is not total in its error channel.  With echo on
(and no prompt), `queryResidual` panics — indexes `[1]` of a one-element
split — exactly when the trimmed response line does not contain the
echoed query token followed by a space; and the typed parsers of the
numeric queries call `parse().unwrap()`, panicking on non-numeric
residuals: for `Faults` on any residual containing a character that is
neither a digit nor `+`, and for `Wavelength`, `Power`, `GddCurve` and
`Gdd` on the residual `INVALID` (the instrument's rejection tail). -/
theorem query_parse_panics :
    ∀ (query_str buf s : List Char) (c : Char),
      (queryResidual true false query_str buf = none ↔
        containsSub (trimL buf) (query_str ++ [' ']) = false) ∧
      (c ∈ s → c.isDigit = false → c ≠ '+' → faultsParseResult s = none) ∧
      wavelengthParseResult "INVALID".data = none ∧
      powerParseResult "INVALID".data = none ∧
      gddCurveParseResult "INVALID".data = none ∧
      gddParseResult "INVALID".data = none ∧
      queryResidual true false "?F".data "garbage\r\n".data = none := by
  intro query_str buf s c
  refine ⟨?_, ?_, by decide, by decide, by decide, by decide, by decide⟩
  · show (splitStr (trimL buf) (query_str ++ [' '])).get? 1 = none ↔ _
    rw [List.get?_eq_none]
    have hne := splitFuel_ne_nil (query_str ++ [' '])
      (trimL buf).length (trimL buf)
    have hlen : (splitStr (trimL buf) (query_str ++ [' '])).length ≠ 0 := by
      intro h
      exact hne (List.length_eq_zero.mp h)
    unfold containsSub
    constructor
    · intro h
      have : (splitStr (trimL buf) (query_str ++ [' '])).length = 1 := by
        omega
      simp [this]
    · intro h
      have := of_decide_eq_false h
      omega
  · intro hc hdig hplus
    have hct : c ∈ (if s.head? = some '+' then s.tail else s) := by
      by_cases h : s.head? = some '+'
      · rw [if_pos h]
        cases s with
        | nil => cases hc
        | cons a r =>
          have ha : a = '+' := by
            simpa using h
          rcases List.mem_cons.mp hc with h1 | h1
          · exact absurd (h1.trans ha) hplus
          · simpa using h1
      · rwa [if_neg h]
    have hall : (if s.head? = some '+' then s.tail else s).all
        Char.isDigit = false := by
      rw [List.all_eq_false]
      exact ⟨c, hct, by simp [hdig]⟩
    simp [faultsParseResult, parseU8L, hall]

/-- C9 witness: the panic characterizations applied at the token `?F`,
the line `garbage`, and the residual `a`. -/
theorem query_parse_panics_witness :
    faultsParseResult "a".data = none ∧
      queryResidual true false "?F".data "?F12\r\n".data = none := by
  obtain ⟨h1, h2, -, -, -, -, -⟩ :=
    query_parse_panics "?F".data "?F12\r\n".data "a".data 'a'
  exact ⟨h2 (by decide) (by decide) (by decide), h1.mpr (by decide)⟩

/-! ## C3: `send_command` response policy -/

/-- C3 (amended): with echo on and no prompt, a response containing the
literal `COMMAND NOT EXECUTED` yields `CommandNotExecuted`; otherwise the
command returns `Ok` exactly when echo removal succeeds (the line splits
on the echoed command token plus space into exactly two parts) and the
residual tail trims to empty; a residual that does not trim to empty
yields `InvalidArguments` carrying the *raw* residual, line terminator
included — receiving `WV=0 INVALID\x0d\n` after `WV=0` yields
`InvalidArguments` of `INVALID\x0d\n` — while `WV=800 \x0d\n` after
`WV=800` trims to empty and yields `Ok`. -/
theorem send_command_residual_policy :
    ∀ (command_str buf a b : List Char),
      (containsSub buf cneTok = true →
        sendCommandParse true false command_str buf =
          some (.error .CommandNotExecutedError)) ∧
      (containsSub buf cneTok = false →
        splitStr buf (command_str ++ [' ']) = [a, b] →
        ((sendCommandParse true false command_str buf = some (.ok ()) ↔
            trimL b = []) ∧
          (trimL b ≠ [] →
            sendCommandParse true false command_str buf =
              some (.error (.InvalidArgumentsError b))))) ∧
      (containsSub buf cneTok = false →
        (sendCommandParse true false command_str buf = some (.ok ()) ↔
          ∃ x y, splitStr buf (command_str ++ [' ']) = [x, y] ∧
            trimL y = [])) ∧
      sendCommandParse true false "WV=800".data "WV=800 \r\n".data =
        some (.ok ()) ∧
      sendCommandParse true false "WV=0".data "WV=0 INVALID\r\n".data =
        some (.error (.InvalidArgumentsError "INVALID\r\n".data)) := by
  intro command_str buf a b
  refine ⟨?_, ?_, ?_, by decide, by decide⟩
  · intro h
    simp [sendCommandParse, h]
  · intro h hsplit
    constructor
    · constructor
      · intro hok
        by_contra htail
        simp [sendCommandParse, h, hsplit, htail] at hok
      · intro htail
        simp [sendCommandParse, h, hsplit, htail]
    · intro htail
      simp [sendCommandParse, h, hsplit, htail]
  · intro h
    constructor
    · intro hok
      rcases hs : splitStr buf (command_str ++ [' ']) with
        _ | ⟨x, _ | ⟨y, _ | ⟨z, w⟩⟩⟩
      · simp [sendCommandParse, h, hs] at hok
      · simp [sendCommandParse, h, hs] at hok
      · refine ⟨x, y, rfl, ?_⟩
        by_contra htail
        simp [sendCommandParse, h, hs, htail] at hok
      · simp [sendCommandParse, h, hs] at hok
    · rintro ⟨x, y, hs, htail⟩
      simp [sendCommandParse, h, hs, htail]

/-- C3 witness: the response policy applied at the command token `WV=0`
and the response line `WV=0 INVALID\x0d\n` (non-empty residual) and at a
`COMMAND NOT EXECUTED` response. -/
theorem send_command_residual_policy_witness :
    sendCommandParse true false "WV=0".data "WV=0 INVALID\r\n".data =
        some (.error (.InvalidArgumentsError "INVALID\r\n".data)) ∧
      sendCommandParse true false "WV=800".data
          "COMMAND NOT EXECUTED\r\n".data =
        some (.error .CommandNotExecutedError) := by
  obtain ⟨-, h2, -, -, -⟩ :=
    send_command_residual_policy "WV=0".data "WV=0 INVALID\r\n".data
      [] "INVALID\r\n".data
  obtain ⟨h1b, -, -, -, -⟩ :=
    send_command_residual_policy "WV=800".data
      "COMMAND NOT EXECUTED\r\n".data [] []
  exact ⟨(h2 (by decide) (by decide)).2 (by decide), h1b (by decide)⟩

/-- C3 counterexample: the claim's concrete example is off on the error
payload — the code stores the raw split tail, terminator included, so the
`InvalidArguments` detail is `INVALID\x0d\n`, not the trimmed
`INVALID`. -/
theorem send_command_invalid_args_raw_tail :
    sendCommandParse true false "WV=0".data "WV=0 INVALID\r\n".data =
        some (.error (.InvalidArgumentsError "INVALID\r\n".data)) ∧
      sendCommandParse true false "WV=0".data "WV=0 INVALID\r\n".data ≠
        some (.error (.InvalidArgumentsError "INVALID".data)) := by
  decide

/-! ## C7: `status` -/

/-- C7: `status` executes exactly the seventeen read-only queries in the
fixed order echo, laser power, variable shutter, fixed shutter,
keyswitch, faults, fault text, tuning, variable alignment, fixed
alignment, status text, wavelength, variable power, fixed power, GDD
curve index, GDD curve name, GDD — and returns the aggregate of their
results, failing with the first failing query's error (having issued
exactly the queries up to and including the failing one). -/
theorem status_runs_seventeen_queries_in_order :
    ∀ (o : ∀ q : StatusQuery, Except CoherentErrorM q.Result),
      (∀ (a1 : Bool) (a2 : LaserState) (a3 a4 : ShutterState) (a5 : Bool)
         (a6 : Nat) (a7 : String) (a8 : TuningStatus) (a9 a10 : Bool)
         (a11 : String) (a12 a13 a14 : ℚ) (a15 : Int) (a16 : String)
         (a17 : ℚ),
         o .echo = .ok a1 → o .laser = .ok a2 → o .shutterVar = .ok a3 →
         o .shutterFixed = .ok a4 → o .keyswitch = .ok a5 →
         o .faults = .ok a6 → o .faultText = .ok a7 → o .tuning = .ok a8 →
         o .alignVar = .ok a9 → o .alignFixed = .ok a10 →
         o .statusText = .ok a11 → o .wavelength = .ok a12 →
         o .powerVar = .ok a13 → o .powerFixed = .ok a14 →
         o .gddCurve = .ok a15 → o .gddCurveN = .ok a16 → o .gdd = .ok a17 →
         statusRun o = (.ok ⟨a1, a2, a3, a4, a5, a6, a7, a8, a9, a10, a11,
                             a12, a13, a14, a15, a16, a17⟩, statusOrder)) ∧
      (∀ (t : StatusQuery) (e : CoherentErrorM),
         o t = .error e →
         (∀ u : StatusQuery, u.idx < t.idx → ∃ v, o u = .ok v) →
         statusRun o = (.error e, statusOrder.take (t.idx + 1))) := by
  intro o
  constructor
  · intro a1 a2 a3 a4 a5 a6 a7 a8 a9 a10 a11 a12 a13 a14 a15 a16 a17
      h1 h2 h3 h4 h5 h6 h7 h8 h9 h10 h11 h12 h13 h14 h15 h16 h17
    simp [statusRun, h1, h2, h3, h4, h5, h6, h7, h8, h9, h10, h11, h12,
      h13, h14, h15, h16, h17]
  · intro t e ht hprev
    cases t with
    | echo => simp [statusRun, ht, StatusQuery.idx]
    | laser =>
      obtain ⟨v1, h1⟩ := hprev .echo (by decide)
      simp [statusRun, ht, h1, StatusQuery.idx]
    | shutterVar =>
      obtain ⟨v1, h1⟩ := hprev .echo (by decide)
      obtain ⟨v2, h2⟩ := hprev .laser (by decide)
      simp [statusRun, ht, h1, h2, StatusQuery.idx]
    | shutterFixed =>
      obtain ⟨v1, h1⟩ := hprev .echo (by decide)
      obtain ⟨v2, h2⟩ := hprev .laser (by decide)
      obtain ⟨v3, h3⟩ := hprev .shutterVar (by decide)
      simp [statusRun, ht, h1, h2, h3, StatusQuery.idx]
    | keyswitch =>
      obtain ⟨v1, h1⟩ := hprev .echo (by decide)
      obtain ⟨v2, h2⟩ := hprev .laser (by decide)
      obtain ⟨v3, h3⟩ := hprev .shutterVar (by decide)
      obtain ⟨v4, h4⟩ := hprev .shutterFixed (by decide)
      simp [statusRun, ht, h1, h2, h3, h4, StatusQuery.idx]
    | faults =>
      obtain ⟨v1, h1⟩ := hprev .echo (by decide)
      obtain ⟨v2, h2⟩ := hprev .laser (by decide)
      obtain ⟨v3, h3⟩ := hprev .shutterVar (by decide)
      obtain ⟨v4, h4⟩ := hprev .shutterFixed (by decide)
      obtain ⟨v5, h5⟩ := hprev .keyswitch (by decide)
      simp [statusRun, ht, h1, h2, h3, h4, h5, StatusQuery.idx]
    | faultText =>
      obtain ⟨v1, h1⟩ := hprev .echo (by decide)
      obtain ⟨v2, h2⟩ := hprev .laser (by decide)
      obtain ⟨v3, h3⟩ := hprev .shutterVar (by decide)
      obtain ⟨v4, h4⟩ := hprev .shutterFixed (by decide)
      obtain ⟨v5, h5⟩ := hprev .keyswitch (by decide)
      obtain ⟨v6, h6⟩ := hprev .faults (by decide)
      simp [statusRun, ht, h1, h2, h3, h4, h5, h6, StatusQuery.idx]
    | tuning =>
      obtain ⟨v1, h1⟩ := hprev .echo (by decide)
      obtain ⟨v2, h2⟩ := hprev .laser (by decide)
      obtain ⟨v3, h3⟩ := hprev .shutterVar (by decide)
      obtain ⟨v4, h4⟩ := hprev .shutterFixed (by decide)
      obtain ⟨v5, h5⟩ := hprev .keyswitch (by decide)
      obtain ⟨v6, h6⟩ := hprev .faults (by decide)
      obtain ⟨v7, h7⟩ := hprev .faultText (by decide)
      simp [statusRun, ht, h1, h2, h3, h4, h5, h6, h7, StatusQuery.idx]
    | alignVar =>
      obtain ⟨v1, h1⟩ := hprev .echo (by decide)
      obtain ⟨v2, h2⟩ := hprev .laser (by decide)
      obtain ⟨v3, h3⟩ := hprev .shutterVar (by decide)
      obtain ⟨v4, h4⟩ := hprev .shutterFixed (by decide)
      obtain ⟨v5, h5⟩ := hprev .keyswitch (by decide)
      obtain ⟨v6, h6⟩ := hprev .faults (by decide)
      obtain ⟨v7, h7⟩ := hprev .faultText (by decide)
      obtain ⟨v8, h8⟩ := hprev .tuning (by decide)
      simp [statusRun, ht, h1, h2, h3, h4, h5, h6, h7, h8, StatusQuery.idx]
    | alignFixed =>
      obtain ⟨v1, h1⟩ := hprev .echo (by decide)
      obtain ⟨v2, h2⟩ := hprev .laser (by decide)
      obtain ⟨v3, h3⟩ := hprev .shutterVar (by decide)
      obtain ⟨v4, h4⟩ := hprev .shutterFixed (by decide)
      obtain ⟨v5, h5⟩ := hprev .keyswitch (by decide)
      obtain ⟨v6, h6⟩ := hprev .faults (by decide)
      obtain ⟨v7, h7⟩ := hprev .faultText (by decide)
      obtain ⟨v8, h8⟩ := hprev .tuning (by decide)
      obtain ⟨v9, h9⟩ := hprev .alignVar (by decide)
      simp [statusRun, ht, h1, h2, h3, h4, h5, h6, h7, h8, h9,
        StatusQuery.idx]
    | statusText =>
      obtain ⟨v1, h1⟩ := hprev .echo (by decide)
      obtain ⟨v2, h2⟩ := hprev .laser (by decide)
      obtain ⟨v3, h3⟩ := hprev .shutterVar (by decide)
      obtain ⟨v4, h4⟩ := hprev .shutterFixed (by decide)
      obtain ⟨v5, h5⟩ := hprev .keyswitch (by decide)
      obtain ⟨v6, h6⟩ := hprev .faults (by decide)
      obtain ⟨v7, h7⟩ := hprev .faultText (by decide)
      obtain ⟨v8, h8⟩ := hprev .tuning (by decide)
      obtain ⟨v9, h9⟩ := hprev .alignVar (by decide)
      obtain ⟨v10, h10⟩ := hprev .alignFixed (by decide)
      simp [statusRun, ht, h1, h2, h3, h4, h5, h6, h7, h8, h9, h10,
        StatusQuery.idx]
    | wavelength =>
      obtain ⟨v1, h1⟩ := hprev .echo (by decide)
      obtain ⟨v2, h2⟩ := hprev .laser (by decide)
      obtain ⟨v3, h3⟩ := hprev .shutterVar (by decide)
      obtain ⟨v4, h4⟩ := hprev .shutterFixed (by decide)
      obtain ⟨v5, h5⟩ := hprev .keyswitch (by decide)
      obtain ⟨v6, h6⟩ := hprev .faults (by decide)
      obtain ⟨v7, h7⟩ := hprev .faultText (by decide)
      obtain ⟨v8, h8⟩ := hprev .tuning (by decide)
      obtain ⟨v9, h9⟩ := hprev .alignVar (by decide)
      obtain ⟨v10, h10⟩ := hprev .alignFixed (by decide)
      obtain ⟨v11, h11⟩ := hprev .statusText (by decide)
      simp [statusRun, ht, h1, h2, h3, h4, h5, h6, h7, h8, h9, h10, h11,
        StatusQuery.idx]
    | powerVar =>
      obtain ⟨v1, h1⟩ := hprev .echo (by decide)
      obtain ⟨v2, h2⟩ := hprev .laser (by decide)
      obtain ⟨v3, h3⟩ := hprev .shutterVar (by decide)
      obtain ⟨v4, h4⟩ := hprev .shutterFixed (by decide)
      obtain ⟨v5, h5⟩ := hprev .keyswitch (by decide)
      obtain ⟨v6, h6⟩ := hprev .faults (by decide)
      obtain ⟨v7, h7⟩ := hprev .faultText (by decide)
      obtain ⟨v8, h8⟩ := hprev .tuning (by decide)
      obtain ⟨v9, h9⟩ := hprev .alignVar (by decide)
      obtain ⟨v10, h10⟩ := hprev .alignFixed (by decide)
      obtain ⟨v11, h11⟩ := hprev .statusText (by decide)
      obtain ⟨v12, h12⟩ := hprev .wavelength (by decide)
      simp [statusRun, ht, h1, h2, h3, h4, h5, h6, h7, h8, h9, h10, h11,
        h12, StatusQuery.idx]
    | powerFixed =>
      obtain ⟨v1, h1⟩ := hprev .echo (by decide)
      obtain ⟨v2, h2⟩ := hprev .laser (by decide)
      obtain ⟨v3, h3⟩ := hprev .shutterVar (by decide)
      obtain ⟨v4, h4⟩ := hprev .shutterFixed (by decide)
      obtain ⟨v5, h5⟩ := hprev .keyswitch (by decide)
      obtain ⟨v6, h6⟩ := hprev .faults (by decide)
      obtain ⟨v7, h7⟩ := hprev .faultText (by decide)
      obtain ⟨v8, h8⟩ := hprev .tuning (by decide)
      obtain ⟨v9, h9⟩ := hprev .alignVar (by decide)
      obtain ⟨v10, h10⟩ := hprev .alignFixed (by decide)
      obtain ⟨v11, h11⟩ := hprev .statusText (by decide)
      obtain ⟨v12, h12⟩ := hprev .wavelength (by decide)
      obtain ⟨v13, h13⟩ := hprev .powerVar (by decide)
      simp [statusRun, ht, h1, h2, h3, h4, h5, h6, h7, h8, h9, h10, h11,
        h12, h13, StatusQuery.idx]
    | gddCurve =>
      obtain ⟨v1, h1⟩ := hprev .echo (by decide)
      obtain ⟨v2, h2⟩ := hprev .laser (by decide)
      obtain ⟨v3, h3⟩ := hprev .shutterVar (by decide)
      obtain ⟨v4, h4⟩ := hprev .shutterFixed (by decide)
      obtain ⟨v5, h5⟩ := hprev .keyswitch (by decide)
      obtain ⟨v6, h6⟩ := hprev .faults (by decide)
      obtain ⟨v7, h7⟩ := hprev .faultText (by decide)
      obtain ⟨v8, h8⟩ := hprev .tuning (by decide)
      obtain ⟨v9, h9⟩ := hprev .alignVar (by decide)
      obtain ⟨v10, h10⟩ := hprev .alignFixed (by decide)
      obtain ⟨v11, h11⟩ := hprev .statusText (by decide)
      obtain ⟨v12, h12⟩ := hprev .wavelength (by decide)
      obtain ⟨v13, h13⟩ := hprev .powerVar (by decide)
      obtain ⟨v14, h14⟩ := hprev .powerFixed (by decide)
      simp [statusRun, ht, h1, h2, h3, h4, h5, h6, h7, h8, h9, h10, h11,
        h12, h13, h14, StatusQuery.idx]
    | gddCurveN =>
      obtain ⟨v1, h1⟩ := hprev .echo (by decide)
      obtain ⟨v2, h2⟩ := hprev .laser (by decide)
      obtain ⟨v3, h3⟩ := hprev .shutterVar (by decide)
      obtain ⟨v4, h4⟩ := hprev .shutterFixed (by decide)
      obtain ⟨v5, h5⟩ := hprev .keyswitch (by decide)
      obtain ⟨v6, h6⟩ := hprev .faults (by decide)
      obtain ⟨v7, h7⟩ := hprev .faultText (by decide)
      obtain ⟨v8, h8⟩ := hprev .tuning (by decide)
      obtain ⟨v9, h9⟩ := hprev .alignVar (by decide)
      obtain ⟨v10, h10⟩ := hprev .alignFixed (by decide)
      obtain ⟨v11, h11⟩ := hprev .statusText (by decide)
      obtain ⟨v12, h12⟩ := hprev .wavelength (by decide)
      obtain ⟨v13, h13⟩ := hprev .powerVar (by decide)
      obtain ⟨v14, h14⟩ := hprev .powerFixed (by decide)
      obtain ⟨v15, h15⟩ := hprev .gddCurve (by decide)
      simp [statusRun, ht, h1, h2, h3, h4, h5, h6, h7, h8, h9, h10, h11,
        h12, h13, h14, h15, StatusQuery.idx]
    | gdd =>
      obtain ⟨v1, h1⟩ := hprev .echo (by decide)
      obtain ⟨v2, h2⟩ := hprev .laser (by decide)
      obtain ⟨v3, h3⟩ := hprev .shutterVar (by decide)
      obtain ⟨v4, h4⟩ := hprev .shutterFixed (by decide)
      obtain ⟨v5, h5⟩ := hprev .keyswitch (by decide)
      obtain ⟨v6, h6⟩ := hprev .faults (by decide)
      obtain ⟨v7, h7⟩ := hprev .faultText (by decide)
      obtain ⟨v8, h8⟩ := hprev .tuning (by decide)
      obtain ⟨v9, h9⟩ := hprev .alignVar (by decide)
      obtain ⟨v10, h10⟩ := hprev .alignFixed (by decide)
      obtain ⟨v11, h11⟩ := hprev .statusText (by decide)
      obtain ⟨v12, h12⟩ := hprev .wavelength (by decide)
      obtain ⟨v13, h13⟩ := hprev .powerVar (by decide)
      obtain ⟨v14, h14⟩ := hprev .powerFixed (by decide)
      obtain ⟨v15, h15⟩ := hprev .gddCurve (by decide)
      obtain ⟨v16, h16⟩ := hprev .gddCurveN (by decide)
      simp [statusRun, ht, h1, h2, h3, h4, h5, h6, h7, h8, h9, h10, h11,
        h12, h13, h14, h15, h16, StatusQuery.idx]

/-- C7 witness: the orchestration theorem applied at the all-successful
oracle and at the oracle whose sixth query (faults) fails. -/
theorem status_runs_seventeen_queries_in_order_witness :
    statusRun statusOracleOk =
        (.ok ⟨true, .On, .Open, .Closed, true, 0, "No faults", .Ready,
              false, false, "OK", 920, 1000, 5000, 0, "Default", 0⟩,
         statusOrder) ∧
      statusRun statusOracleFailFaults =
        (.error .TimeoutError, statusOrder.take 6) := by
  obtain ⟨hok, -⟩ := status_runs_seventeen_queries_in_order statusOracleOk
  obtain ⟨-, herr⟩ :=
    status_runs_seventeen_queries_in_order statusOracleFailFaults
  refine ⟨hok true .On .Open .Closed true 0 "No faults" .Ready false false
      "OK" 920 1000 5000 0 "Default" 0 rfl rfl rfl rfl rfl rfl rfl rfl rfl
      rfl rfl rfl rfl rfl rfl rfl rfl, ?_⟩
  have h := herr .faults .TimeoutError rfl ?_
  · exact h
  · intro u hu
    cases u <;> first
      | exact absurd hu (by decide)
      | exact ⟨_, rfl⟩

/-! ## C10: the client reply-wait loop -/

/-- Prefix testing against an append ignores the tail when the candidate
prefix fits inside the first part. -/
theorem isPrefixOf_append_of_le (lit c w : List Nat)
    (h : lit.length ≤ c.length) :
    lit.isPrefixOf (c ++ w) = lit.isPrefixOf c := by
  rw [Bool.eq_iff_iff, List.isPrefixOf_iff_prefix, List.isPrefixOf_iff_prefix,
    List.prefix_iff_eq_take, List.prefix_iff_eq_take,
    List.take_append_of_le_length h]

/-- The loop's window after a read: its leading bytes are those of the
chunk just read, so a literal no longer than the chunk matches the window
exactly when it matches the chunk. -/
theorem isPrefixOf_take_append (lit c w : List Nat) (ptr : Nat)
    (h : lit.length ≤ c.length) :
    lit.isPrefixOf ((c ++ w).take (ptr + c.length)) = lit.isPrefixOf c := by
  rw [Nat.add_comm, List.take_append, isPrefixOf_append_of_le _ _ _ h]

/-- On a trace whose every chunk is at least as long as the reply
literals and starts with none of them, the loop never returns a reply: it
panics as soon as the cumulative counter passes 1024 and otherwise stays
pending. -/
theorem waitLoop_no_start_match (chunks : List (List Nat)) :
    ∀ (buffer : List Nat) (ptr : Nat), ptr ≤ 1024 →
      (∀ ch ∈ chunks, 19 ≤ ch.length ∧
        COMMAND_SUCCESSFUL_B.isPrefixOf ch = false ∧
        COMMAND_FAILED_B.isPrefixOf ch = false ∧
        NOT_PRIMARY_CLIENT_B.isPrefixOf ch = false) →
      waitLoop buffer ptr chunks =
        (if 1024 < ptr + (chunks.map List.length).sum then
          WaitOutcome.panicked
         else WaitOutcome.pending) := by
  induction chunks with
  | nil =>
    intro buffer ptr hptr h
    rw [waitLoop, if_neg (by simpa using hptr)]
  | cons c rest ih =>
    intro buffer ptr hptr h
    obtain ⟨hc19, hcs, hcf, hcn⟩ := h c (by simp)
    have hsum : ((c :: rest).map List.length).sum =
        c.length + (rest.map List.length).sum := by simp
    rw [waitLoop]
    by_cases hp : 1024 < ptr + c.length
    · rw [if_pos hp, if_pos (by omega)]
    · rw [if_neg hp]
      have hls : COMMAND_SUCCESSFUL_B.length ≤ c.length := by
        have : COMMAND_SUCCESSFUL_B.length = 19 := by decide
        omega
      have hlf : COMMAND_FAILED_B.length ≤ c.length := by
        have : COMMAND_FAILED_B.length = 15 := by decide
        omega
      have hln : NOT_PRIMARY_CLIENT_B.length ≤ c.length := by
        have : NOT_PRIMARY_CLIENT_B.length = 19 := by decide
        omega
      have hw1 := isPrefixOf_take_append COMMAND_SUCCESSFUL_B c
        (buffer.drop c.length) ptr hls
      have hw2 := isPrefixOf_take_append COMMAND_FAILED_B c
        (buffer.drop c.length) ptr hlf
      have hw3 := isPrefixOf_take_append NOT_PRIMARY_CLIENT_B c
        (buffer.drop c.length) ptr hln
      rw [hcs] at hw1
      rw [hcf] at hw2
      rw [hcn] at hw3
      simp only [overwriteBuffer]
      rw [hw1, hw2, hw3]
      simp only [Bool.false_eq_true, if_false]
      rw [ih (c ++ List.drop c.length buffer) (ptr + c.length) (by omega)
        (fun ch hm => h ch (by simp [hm]))]
      rw [hsum]
      by_cases hq : 1024 < ptr + (c.length + (rest.map List.length).sum)
      · rw [if_pos (by omega), if_pos hq]
      · rw [if_neg (by omega), if_neg hq]

/-- C10 (amended): the reply-wait loop matches a reply only at the start
of its in-place buffer, whose leading bytes are those of the most recent
read — so a read that begins with a reply literal returns that reply even
when earlier bytes (for example a status broadcast) did not; but on a
trace in which no read begins with a reply literal (each read at least as
long as the literals), the loop never returns a reply, and the slice
`response[0..response_ptr]` panics at the first read that pushes the
cumulative total over 1024 bytes. -/
theorem reply_wait_loop_start_only_and_panic :
    (∀ (buffer : List Nat) (ptr : Nat) (c : List Nat)
       (rest : List (List Nat)),
       COMMAND_SUCCESSFUL_B.isPrefixOf c = true → ptr + c.length ≤ 1024 →
       waitLoop buffer ptr (c :: rest) = .okUnit) ∧
    (∀ chunks : List (List Nat),
       (∀ ch ∈ chunks, 19 ≤ ch.length ∧
         COMMAND_SUCCESSFUL_B.isPrefixOf ch = false ∧
         COMMAND_FAILED_B.isPrefixOf ch = false ∧
         NOT_PRIMARY_CLIENT_B.isPrefixOf ch = false) →
       callAndWait chunks =
         (if 1024 < (chunks.map List.length).sum then WaitOutcome.panicked
          else WaitOutcome.pending)) := by
  constructor
  · intro buffer ptr c rest hpre hfit
    rw [waitLoop, if_neg (by omega)]
    have hls : COMMAND_SUCCESSFUL_B.length ≤ c.length := by
      have h19 : COMMAND_SUCCESSFUL_B.length = 19 := by decide
      have := List.IsPrefix.length_le (List.isPrefixOf_iff_prefix.mp hpre)
      omega
    have hw := isPrefixOf_take_append COMMAND_SUCCESSFUL_B c
      (buffer.drop c.length) ptr hls
    rw [hpre] at hw
    simp only [overwriteBuffer]
    rw [hw]
    simp
  · intro chunks h
    have h0 := waitLoop_no_start_match chunks initialResponseBuffer 0
      (by omega) h
    rw [Nat.zero_add] at h0
    exact h0

set_option maxRecDepth 4000 in
/-- C10 witness: the reply-wait characterization applied at a single read
delivering the success literal, and at a trace of two 600-byte
non-matching reads (total 1200 bytes, panicking past 1024). -/
theorem reply_wait_loop_start_only_and_panic_witness :
    waitLoop initialResponseBuffer 0 [COMMAND_SUCCESSFUL_B] =
        WaitOutcome.okUnit ∧
      callAndWait [statusNoiseChunk, statusNoiseChunk] =
        WaitOutcome.panicked := by
  obtain ⟨ha, hb⟩ := reply_wait_loop_start_only_and_panic
  refine ⟨ha initialResponseBuffer 0 COMMAND_SUCCESSFUL_B []
    (by decide) (by decide), ?_⟩
  rw [hb [statusNoiseChunk, statusNoiseChunk] (by decide),
    if_pos (by decide)]

set_option maxRecDepth 4000 in
/-- C10 counterexample: a stream beginning with a status-like record (not
one of the reply literals) does *not* doom the wait loop — a second read
delivering the success literal overwrites the buffer front and the loop
returns the success outcome. -/
theorem reply_wait_loop_recovers_after_status_frame :
    COMMAND_SUCCESSFUL_B.isPrefixOf
        (statusHeadChunk ++ COMMAND_SUCCESSFUL_B) = false ∧
      COMMAND_FAILED_B.isPrefixOf
        (statusHeadChunk ++ COMMAND_SUCCESSFUL_B) = false ∧
      NOT_PRIMARY_CLIENT_B.isPrefixOf
        (statusHeadChunk ++ COMMAND_SUCCESSFUL_B) = false ∧
      callAndWait [statusHeadChunk, COMMAND_SUCCESSFUL_B] =
        WaitOutcome.okUnit := by
  refine ⟨by decide, by decide, by decide, ?_⟩
  decide

/-! ## C1: status framing -/

/-- Boolean decoding inverts boolean encoding. -/
theorem dBool_enc (b : Bool) (r : List Nat) :
    dBool (encBool b ++ r) = some (b, r) := by
  cases b <;> rfl

/-- `LaserState` decoding inverts encoding. -/
theorem dLaserState_enc (v : LaserState) (r : List Nat) :
    dLaserState (encLaserState v ++ r) = some (v, r) := by
  cases v <;> rfl

/-- `ShutterState` decoding inverts encoding. -/
theorem dShutter_enc (v : ShutterState) (r : List Nat) :
    dShutter (encShutter v ++ r) = some (v, r) := by
  cases v <;> rfl

/-- `TuningStatus` decoding inverts encoding. -/
theorem dTuning_enc (v : TuningStatus) (r : List Nat) :
    dTuning (encTuning v ++ r) = some (v, r) := by
  cases v <;> rfl

/-- `u8` decoding inverts encoding for in-range values. -/
theorem dU8_enc (n : Nat) (r : List Nat) (_h : n < 256) :
    dU8 (encU8 n ++ r) = some (n, r) := by
  by_cases h1 : n < 128
  · simp [encU8, dU8, h1]
  · simp [encU8, dU8, h1]

/-- Short-string decoding inverts encoding. -/
theorem dStrB_enc (s : List Nat) (r : List Nat) (h : s.length < 32) :
    dStrB (encStrB s ++ r) = some (s, r) := by
  simp only [encStrB, List.cons_append, dStrB]
  rw [if_pos (by omega), show 160 + s.length - 160 = s.length from by omega,
    if_pos (by simp), List.take_left, List.drop_left]

/-- Four-byte big-endian decoding inverts encoding for 32-bit values. -/
theorem r32_w32 (n : Nat) (r : List Nat) (h : n < 2 ^ 32) :
    r32 (w32 n ++ r) = some (n, r) := by
  simp only [w32, List.cons_append, List.nil_append, r32]
  congr 2
  omega

/-- `f32` bit-pattern decoding inverts encoding. -/
theorem dF32_enc (bits : Nat) (r : List Nat) (h : bits < 2 ^ 32) :
    dF32 (encF32 bits ++ r) = some (bits, r) := by
  simp only [encF32, List.cons_append, dF32]
  exact r32_w32 _ _ h

/-- `i32` decoding inverts encoding for values in the 32-bit range. -/
theorem dI32_enc (i : Int) (r : List Nat) (h1 : -(2 ^ 31 : Int) ≤ i)
    (h2 : i < 2 ^ 31) :
    dI32 (encI32 i ++ r) = some (i, r) := by
  simp only [encI32, List.cons_append, dI32]
  have hu : (i % (2 ^ 32 : Int)).toNat < 2 ^ 32 := by omega
  rw [r32_w32 _ _ hu]
  simp only [Option.map_some']
  congr 1
  have hnn : 0 ≤ i % (2 ^ 32 : Int) := Int.emod_nonneg i (by norm_num)
  have hcast : (((i % (2 ^ 32 : Int)).toNat : Int)) = i % (2 ^ 32 : Int) :=
    Int.toNat_of_nonneg hnn
  have hiff : (i % (2 ^ 32 : Int)).toNat < 2 ^ 31 ↔
      i % (2 ^ 32 : Int) < 2 ^ 31 := by omega
  by_cases hc : i % (2 ^ 32 : Int) < 2 ^ 31
  · rw [if_pos (hiff.mpr hc), hcast]
    simp only [Prod.mk.injEq]
    exact ⟨by omega, trivial⟩
  · rw [if_neg (fun hx => hc (hiff.mp hx)), hcast]
    simp only [Prod.mk.injEq]
    exact ⟨by omega, trivial⟩

/-- The modelled encoding is self-delimiting: decoding reads back exactly
the encoded record and leaves any trailing bytes untouched. -/
theorem decode_encode_statusRecord (x : StatusRecord) (rest : List Nat)
    (h : x.wf) :
    decodeStatusRecord (encodeStatusRecord x ++ rest) = some (x, rest) := by
  obtain ⟨h1, h2, h3, h4, h5, h6, h7, h8, h9, h10⟩ := h
  have e6 := fun r => dU8_enc x.faults r h1
  have e7 := fun r => dStrB_enc x.fault_text r h2
  have e11 := fun r => dStrB_enc x.status r h3
  have e12 := fun r => dF32_enc x.wavelength r h5
  have e13 := fun r => dF32_enc x.power_var r h6
  have e14 := fun r => dF32_enc x.power_fixed r h7
  have e15 := fun r => dI32_enc x.gdd_curve r h9 h10
  have e16 := fun r => dStrB_enc x.gdd_curve_n r h4
  have e17 := fun r => dF32_enc x.gdd r h8
  simp only [encodeStatusRecord, List.append_assoc, List.cons_append,
    List.nil_append]
  simp [decodeStatusRecord, dBool_enc, dLaserState_enc, dShutter_enc,
    dTuning_enc, e6, e7, e11, e12, e13, e14, e15, e16, e17]

/-- `matchAtB` in propositional form. -/
theorem matchAtB_eq_true_iff (m s : List Nat) (i : Nat) :
    matchAtB m s i = true ↔ (s.drop i).take m.length = m := by
  simp [matchAtB]

/-- No window starting past the end of the stream matches a non-empty
pattern. -/
theorem matchAtB_of_past_end (m s : List Nat) (i : Nat) (hm : m ≠ [])
    (h : s.length < i + m.length) : matchAtB m s i = false := by
  rw [Bool.eq_false_iff]
  intro hc
  have heq := (matchAtB_eq_true_iff m s i).mp hc
  have hlen := congrArg List.length heq
  have hpos : 0 < m.length := List.length_pos.mpr hm
  simp [List.length_take, List.length_drop] at hlen
  omega

/-- The downward scan returns `i` when `i` matches and nothing above `i`
does. -/
theorem rpositionAux_eq_some (m s : List Nat) (i : Nat)
    (hmatch : matchAtB m s i = true)
    (hlast : ∀ j, i < j → matchAtB m s j = false) :
    ∀ k, i < k → rpositionAux m s k = some i := by
  intro k
  induction k with
  | zero => omega
  | succ n ihn =>
    intro hik
    by_cases he : n = i
    · subst he
      simp [rpositionAux, hmatch]
    · have hin : i < n := by omega
      simp [rpositionAux, hlast n hin, ihn hin]

/-- `rposition` finds the last matching window. -/
theorem rpositionW_eq_some (m s : List Nat) (i : Nat) (hm : m ≠ [])
    (hmatch : matchAtB m s i = true)
    (hlast : ∀ j, i < j → matchAtB m s j = false) :
    rpositionW m s = some i := by
  have hbound : i + m.length ≤ s.length := by
    by_contra hc
    rw [matchAtB_of_past_end m s i hm (by omega)] at hmatch
    cases hmatch
  have hpos : 0 < m.length := List.length_pos.mpr hm
  exact rpositionAux_eq_some m s i hmatch hlast _ (by omega)

/-- C1 (amended): a stream ending in a well-formed status record whose
encoded payload is free of the `TERMINATOR` byte, with no occurrence of
`STATUS_MARKER` after that final record's marker, decodes to that
record — the decoder locates the *last* marker (`rposition`), cuts the
suffix at the first `TERMINATOR` byte, and decodes the cut payload.  The
arbitrary prefix `u` covers buffers holding any number of earlier
records: the latest one wins. -/
theorem status_framing_decodes_latest_newline_free :
    ∀ (u : List Nat) (x : StatusRecord), x.wf →
      (∀ b ∈ encodeStatusRecord x, b ≠ 10) →
      (∀ j < (u ++ statusFrame x).length, u.length < j →
        matchAtB STATUS_MARKER_B (u ++ statusFrame x) j = false) →
      deserializeLaserStatus decStatusPayload (u ++ statusFrame x) =
        .ok x := by
  intro u x hwf hfree hlast
  have hm8 : STATUS_MARKER_B.length = 8 := by decide
  have hmatch : matchAtB STATUS_MARKER_B (u ++ statusFrame x) u.length
      = true := by
    rw [matchAtB_eq_true_iff, List.drop_left, statusFrame,
      List.append_assoc]
    exact List.take_left _ _
  have hlastfull : ∀ j, u.length < j →
      matchAtB STATUS_MARKER_B (u ++ statusFrame x) j = false := by
    intro j hj
    by_cases hlen : j < (u ++ statusFrame x).length
    · exact hlast j hlen hj
    · exact matchAtB_of_past_end _ _ _ (by decide) (by omega)
  have hdrop : (u ++ statusFrame x).drop
      (u.length + STATUS_MARKER_B.length) =
      encodeStatusRecord x ++ [10] := by
    rw [statusFrame, List.append_assoc, List.drop_append, List.drop_left]
    rfl
  have htw : (encodeStatusRecord x ++ [10]).takeWhile
      (fun b => b != 10) = encodeStatusRecord x := by
    rw [List.takeWhile_append_of_pos (by
      intro a ha
      simpa using hfree a ha)]
    simp
  have hdec : decStatusPayload (encodeStatusRecord x) = some x := by
    have := decode_encode_statusRecord x [] hwf
    rw [List.append_nil] at this
    simp [decStatusPayload, this]
  simp [deserializeLaserStatus,
    rpositionW_eq_some STATUS_MARKER_B (u ++ statusFrame x) u.length
      (by decide) hmatch hlastfull,
    hdrop, htw, hdec]

set_option maxRecDepth 8000 in
/-- C1 witness: a buffer holding two status records decodes to the later
one (both payloads terminator-free). -/
theorem status_framing_decodes_latest_newline_free_witness :
    deserializeLaserStatus decStatusPayload
        (statusFrame statusRecordB ++ statusFrame statusRecordA) =
      .ok statusRecordA := by
  exact status_framing_decodes_latest_newline_free
    (statusFrame statusRecordB) statusRecordA (by decide) (by decide)
    (by decide)

/-- C1 counterexample: the round trip does *not* hold for every valid
status record — the fault register 10 puts the `TERMINATOR` byte into the
encoded payload, the decoder cuts the payload there, and decoding fails
instead of returning the record: the framing *does* rely on the
terminator byte being absent from the payload. -/
theorem status_framing_newline_payload_fails :
    statusRecordFaults10.wf ∧
      (10 : Nat) ∈ encodeStatusRecord statusRecordFaults10 ∧
      deserializeLaserStatus decStatusPayload
          (STATUS_MARKER_B ++ encodeStatusRecord statusRecordFaults10 ++
            TERMINATOR_B) =
        .error .SerializationDecodeError ∧
      deserializeLaserStatus decStatusPayload
          (STATUS_MARKER_B ++ encodeStatusRecord statusRecordFaults10 ++
            TERMINATOR_B) ≠
        .ok statusRecordFaults10 := by
  exact ⟨by decide, by decide, by decide, by decide⟩

end CoherentRS

